import Mathlib

/-!
Verification development for `survey_databook_api_v3.py` — a survey-databook
generator that parses a raw survey export grid into question records, tabulates
counts/percentages, and applies demographic "cuts" to a generated results sheet
by textual formula mutation.

Shallow embedding conventions:
* Python strings are Lean `String`s; a pandas `NaN` cell is `none`
  (`Cell := Option String`), a data grid is a `List` of rows.
* Python `str.strip()` / `str.lower()` are modelled on the ASCII whitespace
  and letter range (`pyStrip`, `lowerStr`); the source data is ASCII text.
* Python floats are modelled as exact rationals; `round(x, 1)` is modelled
  with round-half-to-even at the first decimal (`pyRound1`), matching
  Python's documented rounding mode.
* `float(s)` literal acceptance is modelled by `pyFloatVal` (sign, digits,
  fraction, exponent) plus `pyInfNan` for inf/nan spellings; numeric-literal
  underscores are not modelled.
-/

namespace Databook

/-! ## Character / string toolkit -/

/-- ASCII whitespace, as matched by Python `str.strip` and the regex class
`\s` on the source's ASCII data. -/
def isPyWs (c : Char) : Bool :=
  c = ' ' || c = '\t' || c = '\n' || c = '\r' || c = '\x0b' || c = '\x0c'

/-- `str.strip()` on a character list. -/
def pyStripL (cs : List Char) : List Char :=
  ((cs.dropWhile isPyWs).reverse.dropWhile isPyWs).reverse

/-- Python `s.strip()`. -/
def pyStrip (s : String) : String :=
  ⟨pyStripL s.data⟩

/-- Python `s.lower()` (ASCII). -/
def lowerStr (s : String) : String :=
  ⟨s.data.map Char.toLower⟩

/-- Python `s.upper()` (ASCII). -/
def upperStr (s : String) : String :=
  ⟨s.data.map Char.toUpper⟩

/-- Does `pat` occur as a contiguous run inside `s`? (Python `pat in s`.) -/
def containsSubL (s pat : List Char) : Bool :=
  s.tails.any (fun t => pat.isPrefixOf t)

/-- Python `pat in s` on strings. -/
def strContains (s pat : String) : Bool :=
  containsSubL s.data pat.data

/-- Python `s.startswith(pat)`. -/
def pyStartsWith (s pat : String) : Bool :=
  pat.data.isPrefixOf s.data

/-- Python `s.endswith(pat)`. -/
def pyEndsWith (s pat : String) : Bool :=
  pat.data.isSuffixOf s.data

/-- Python `s[n:]`. -/
def strDrop (s : String) (n : Nat) : String :=
  ⟨s.data.drop n⟩

/-- Python `s[:-n]` (for `n ≤ len s`). -/
def strDropRight (s : String) (n : Nat) : String :=
  ⟨s.data.take (s.data.length - n)⟩

/-- Python `s.isdigit()` (ASCII digits). -/
def pyIsDigitStr (s : String) : Bool :=
  !s.data.isEmpty && s.data.all Char.isDigit

/-- Numeric value of an ASCII digit run. -/
def digitsToNat (ds : List Char) : Nat :=
  ds.foldl (fun n c => 10 * n + (c.toNat - 48)) 0

/-! ## Python `float()` literal recognition

`pyFloatVal s` returns the exact rational value of `s` when Python's
`float(s)` accepts it as a finite decimal literal (optional surrounding
whitespace and sign, digits with optional fraction and exponent); it returns
`none` otherwise. `pyInfNan` recognises the inf/infinity/nan spellings, which
`float()` also accepts. Digit-separator underscores are not modelled. -/

/-- Parse an exponent suffix `e`/`E`, optional sign, digits; returns the
signed exponent. `none` when malformed, `some 0` for an absent suffix. -/
def parseExp (cs : List Char) : Option Int :=
  match cs with
  | [] => some 0
  | e :: rest =>
    if e = 'e' || e = 'E' then
      let (sgn, rest') : Int × List Char :=
        match rest with
        | '+' :: r => (1, r)
        | '-' :: r => (-1, r)
        | r => (1, r)
      let ds := rest'.takeWhile Char.isDigit
      if ds.isEmpty || !(rest'.drop ds.length).isEmpty then none
      else some (sgn * digitsToNat ds)
    else none

/-- Parse the mantissa `digits [. [digits]]` or `. digits`; returns
(numerator, fractional digit count, rest). -/
def parseMantissa (cs : List Char) : Option (Nat × Nat × List Char) :=
  let ip := cs.takeWhile Char.isDigit
  let rest := cs.drop ip.length
  match rest with
  | '.' :: r =>
    let fp := r.takeWhile Char.isDigit
    if ip.isEmpty && fp.isEmpty then none
    else some (digitsToNat (ip ++ fp), fp.length, r.drop fp.length)
  | r =>
    if ip.isEmpty then none
    else some (digitsToNat ip, 0, r)

/-- The exact value accepted by `float(s)` for finite decimal literals. -/
def pyFloatVal (s : String) : Option ℚ :=
  let cs := pyStripL s.data
  let (sgn, cs') : ℚ × List Char :=
    match cs with
    | '+' :: r => (1, r)
    | '-' :: r => (-1, r)
    | r => (1, r)
  match parseMantissa cs' with
  | none => none
  | some (m, fdigits, rest) =>
    match parseExp rest with
    | none => none
    | some e =>
      some (sgn * (m : ℚ) * (10 : ℚ) ^ (e - (fdigits : Int)))

/-- inf / infinity / nan spellings accepted by `float(s)`. -/
def pyInfNan (s : String) : Bool :=
  let t := lowerStr (pyStrip s)
  let u :=
    if pyStartsWith t "+" || pyStartsWith t "-" then strDrop t 1 else t
  u = "inf" || u = "infinity" || u = "nan"

/-- Does Python `float(s)` succeed (no `ValueError`)? -/
def pyFloatable (s : String) : Bool :=
  (pyFloatVal s).isSome || pyInfNan s

/-- Python `round(x, 1)` on the exact value: round-half-to-even at the first
decimal place. -/
def pyRound1 (q : ℚ) : ℚ :=
  let t := q * 10
  let f : ℤ := ⌊t⌋
  let n : ℤ :=
    if t - f < 1/2 then f
    else if 1/2 < t - f then f + 1
    else if Even f then f else f + 1
  (n : ℚ) / 10

/-! ## Grid model -/

/-- One raw spreadsheet cell: `none` models pandas `NaN`. -/
abbrev Cell := Option String

/-- One grid row. A row shorter than the sheet width reads as `NaN` beyond
its end, matching a ragged export. -/
abbrev Row := List Cell

/-- The raw export grid, row-major. -/
abbrev Grid := List Row

/-- `df.iloc[i, j]` as an optional value. -/
def cellAt (row : Row) (j : Nat) : Cell :=
  row.getD j none

/-- `str(df.iloc[idx, 0]).strip() if pd.notna(df.iloc[idx, 0]) else ""`. -/
def firstCellStr (g : Grid) (idx : Nat) : String :=
  match cellAt (g.getD idx []) 0 with
  | some s => pyStrip s
  | none => ""

/-! ## Step-1 helpers (`survey_databook_api_v3.py` lines 25-228) -/

/-- `METADATA_TOKENS` (line 27). -/
def METADATA_TOKENS : List String :=
  ["answer choices", "answered", "skipped", "responses", "response",
   "average", "total", "base", "count", "%", "weighted base",
   "unweighted base"]

/-- `is_metadata_text` (line 46). -/
def is_metadata_text (s : String) : Bool :=
  if s = "" then false
  else METADATA_TOKENS.contains (lowerStr (pyStrip s))

/-- `QUESTION_RE.match` (line 25): `^\s*Q\s*(\d+)\s*[\.\)\:\-]?\s*(.*)$`,
case-insensitive. Returns the question number and the raw second capture
group. The trailing `(.*)$` cannot cross a newline, so a remainder that
still contains `'\n'` fails to match (inputs are pre-stripped, so there is
never a trailing newline for `$` to absorb). -/
def matchQuestionRow (s : String) : Option (Nat × String) :=
  let cs := s.data.dropWhile isPyWs
  match cs with
  | [] => none
  | c :: cs1 =>
    if c = 'Q' || c = 'q' then
      let cs2 := cs1.dropWhile isPyWs
      let ds := cs2.takeWhile Char.isDigit
      if ds.isEmpty then none
      else
        let cs3 := (cs2.drop ds.length).dropWhile isPyWs
        let cs4 :=
          match cs3 with
          | p :: rest => if p = '.' || p = ')' || p = ':' || p = '-' then rest else cs3
          | [] => []
        let rest := cs4.dropWhile isPyWs
        if rest.contains '\n' then none
        else some (digitsToNat ds, (⟨rest⟩ : String))
    else none

/-- `is_question_row` (line 52). -/
def is_question_row (s : String) : Bool :=
  (matchQuestionRow s).isSome

/-- Second component of `parse_question_row` (line 56): `m.group(2).strip()`. -/
def questionTitle (s : String) : String :=
  match matchQuestionRow s with
  | some (_, t) => pyStrip t
  | none => ""

/-- `get_auto_type` keyword set (line 137). -/
def SINGLE_KEYWORDS : List String :=
  ["single selection", "single choice", "single select",
   "select one", "[single", "unaided single"]

/-- `get_auto_type` keyword set (line 141). -/
def MULTIPLE_KEYWORDS : List String :=
  ["multiple selection", "multiple choice", "multiple select",
   "multi selection", "multi select", "[multiple", "[multi",
   "aided multiple", "unaided multiple"]

/-- `get_auto_type` (line 128). `options` is accepted but, as in the source,
never read. -/
def get_auto_type (q_text : String) (rank_labels : List String)
    (options : List String) (is_bipolar : Bool) : String :=
  if is_bipolar then "Bipolar"
  else if rank_labels ≠ [] then "Matrix"
  else
    let q_lower := lowerStr q_text
    if SINGLE_KEYWORDS.any (fun k => strContains q_lower k) then "Single"
    else if MULTIPLE_KEYWORDS.any (fun k => strContains q_lower k) then "Multiple"
    else ""

/-- `is_scale_value` (line 161). (Python would raise `OverflowError` on an
explicit `"inf"` cell; that unreachable-in-data corner returns `false` here.) -/
def is_scale_value (v : String) : Bool :=
  if pyIsDigitStr v then true
  else if strContains v "-" then true
  else
    match pyFloatVal v with
    | some q => q.den = 1
    | none => false

/-! ## NPS auto expansion (`expand_nps_if_needed`, line 175) -/

/-- Try the regex `<digits>\s+means?\s+["“]?([^"”]+)` anchored at the
start of `cs` (case-insensitive on `means`); returns the captured group. -/
def npsTryAt (digits : List Char) (cs : List Char) : Option (List Char) :=
  if digits.isPrefixOf cs then
    let r1 := cs.drop digits.length
    let ws1 := r1.takeWhile isPyWs
    if ws1.isEmpty then none
    else
      let r2 := r1.drop ws1.length
      match r2 with
      | m :: e :: a :: n :: r3 =>
        if (m = 'm' || m = 'M') && (e = 'e' || e = 'E') &&
           (a = 'a' || a = 'A') && (n = 'n' || n = 'N') then
          let r4 := match r3 with
            | s :: r4' => if s = 's' || s = 'S' then r4' else r3
            | [] => r3
          let ws2 := r4.takeWhile isPyWs
          if ws2.isEmpty then none
          else
            let r5 := r4.drop ws2.length
            let r6 := match r5 with
              | q :: r6' => if q = '"' || q = '“' then r6' else r5
              | [] => r5
            let cap := r6.takeWhile (fun c => c ≠ '"' && c ≠ '”')
            if cap.isEmpty then none else some cap
        else none
      | _ => none
  else none

/-- `re.search` for the pattern above: first matching start position wins. -/
def npsSearch (digits : List Char) : List Char → Option (List Char)
  | [] => none
  | c :: rest =>
    match npsTryAt digits (c :: rest) with
    | some cap => some cap
    | none => npsSearch digits rest

/-- `expand_nps_if_needed` (line 175). When the question text mentions a
1-10 / 0-10 scale, builds the ten options "1"…"10", replacing the endpoints
with `1- <captured>` / `10- <captured>` when the `means` patterns matched. -/
def expand_nps_if_needed (q_text : String) (options : List String) : List String :=
  let q_lower := lowerStr q_text
  if strContains q_lower "1 to 10" || strContains q_lower "1-10" ||
     strContains q_lower "scale of 0 to 10" then
    let lbl1 :=
      match npsSearch ['1'] q_text.data with
      | some cap => "1- " ++ pyStrip ⟨cap⟩
      | none => "1"
    let lbl10 :=
      match npsSearch ['1', '0'] q_text.data with
      | some cap => "10- " ++ pyStrip ⟨cap⟩
      | none => "10"
    [lbl1, "2", "3", "4", "5", "6", "7", "8", "9", lbl10]
  else options

/-! ## Bipolar / matrix / horizontal-scale detection (lines 67-228) -/

/-- Left fold that can stop early: `step` returning `none` breaks the loop,
keeping the state accumulated so far. -/
def foldBreak {α β : Type} (xs : List α) (init : β) (step : β → α → Option β) : β :=
  match xs with
  | [] => init
  | x :: rest =>
    match step init x with
    | none => init
    | some b => foldBreak rest b step

/-- `is_bipolar_sub_label` (line 67). -/
def is_bipolar_sub_label (first_cell : String) (next_row : Row) : Bool :=
  if first_cell = "" || is_question_row first_cell then false
  else if !strContains (lowerStr first_cell) " or " then false
  else
    let next_col0 :=
      match cellAt next_row 0 with
      | some s => pyStrip s
      | none => ""
    let next_col1 :=
      if next_row.length > 1 then
        match cellAt next_row 1 with
        | some s => pyStrip s
        | none => ""
      else ""
    if next_col0 ≠ "" then false
    else if next_col1 = "" then false
    else if pyFloatable next_col1 then false
    else true

/-- The pole scan of `detect_bipolar_question` (lines 105-118): columns
`1 .. min(20, len(row)) - 1`, breaking at a literal `total`, collecting
non-metadata non-numeric tokens. -/
def collectPoles (row : Row) : List String :=
  foldBreak ((row.take (min 20 row.length)).drop 1) []
    (fun acc cell =>
      match cell with
      | none => some acc
      | some v =>
        let vs := pyStrip v
        if lowerStr vs = "total" then none
        else if !is_metadata_text vs && !pyFloatable vs then some (acc ++ [vs])
        else some acc)

/-- `detect_bipolar_question` (line 90): scan rows after the header until the
next question row; accumulate sub-labels, and take the first sub-label's
sibling row with at least two pole tokens as the pole pair. -/
def detect_bipolar_question (g : Grid) (q_start_idx : Nat) :
    List String × Option String × Option String :=
  foldBreak (List.range' (q_start_idx + 1) (g.length - (q_start_idx + 1)))
    ([], none, none)
    (fun st idx =>
      let first := firstCellStr g idx
      if is_question_row first then none
      else
        let (labels, p1, p2) := st
        if idx + 1 < g.length && is_bipolar_sub_label first (g.getD (idx + 1) []) then
          let labels' := labels ++ [first]
          if p1.isNone then
            let poles := collectPoles (g.getD (idx + 1) [])
            match poles with
            | a :: b :: _ => some (labels', some a, some b)
            | _ => some (labels', p1, p2)
          else some (labels', p1, p2)
        else some st)

/-- The rank scan of the matrix detector (lines 316-323): columns
`1 .. min(30, len(row)) - 1`, breaking at `total`, collecting non-metadata
tokens. -/
def collectRanks (row : Row) : List String :=
  foldBreak ((row.take (min 30 row.length)).drop 1) []
    (fun acc cell =>
      match cell with
      | none => some acc
      | some v =>
        let vs := pyStrip v
        if lowerStr vs = "total" then none
        else if !is_metadata_text vs then some (acc ++ [vs])
        else some acc)

/-- The attribute scan of the matrix detector (lines 326-335): first-column
values from `start` on, breaking at a `NaN` cell or a question row, skipping
metadata tokens. -/
def collectAttrs (g : Grid) (start : Nat) : List String :=
  foldBreak (List.range' start (g.length - start)) []
    (fun acc r =>
      match cellAt (g.getD r []) 0 with
      | none => none
      | some v =>
        let attr := pyStrip v
        if is_question_row attr then none
        else if !is_metadata_text attr then some (acc ++ [attr])
        else some acc)

/-- The cell scan of `detect_horizontal_scale` (lines 207-217). -/
def extractScale (row : Row) : List String :=
  foldBreak ((row.take (min 30 row.length)).drop 1) []
    (fun acc cell =>
      match cell with
      | none => some acc
      | some v =>
        let vs := pyStrip v
        if lowerStr vs = "total" || lowerStr vs = "weighted average" then none
        else if is_scale_value vs then some (acc ++ [vs])
        else some acc)

/-- `detect_horizontal_scale` (line 206). -/
def detect_horizontal_scale (g : Grid) (idx : Nat) : List String :=
  let scale := extractScale (g.getD idx [])
  if scale.length ≥ 3 then scale
  else if idx + 1 < g.length then
    let scale2 := extractScale (g.getD (idx + 1) [])
    if scale2.length ≥ 3 then scale2 else []
  else []

/-! ## Question segmentation (`clean_and_convert`, lines 235-366; the same
loop is repeated verbatim in `_parse_questions_from_file`, lines 2193-2302) -/

/-- One parsed question record. -/
structure ParsedQuestion where
  q_text : String
  options : List String
  rank_labels : List String
  is_bipolar : Bool
deriving Repr, DecidableEq

/-- The mutable state of the segmentation loop. -/
structure SegState where
  qText : Option String
  options : List String
  rankLabels : List String
  isBipolar : Bool
  inQuestion : Bool
  acc : List ParsedQuestion
deriving Repr, DecidableEq

/-- The flush step (`if current_q_text and (current_options or
current_rank_labels): … questions.append(…)`), including the NPS expansion
applied to rank-less questions. A `None`/empty question text, or a segment
with no options and no rank labels, appends nothing. -/
def flushState (st : SegState) : List ParsedQuestion :=
  match st.qText with
  | some t =>
    if t ≠ "" ∧ (st.options ≠ [] ∨ st.rankLabels ≠ []) then
      let opts :=
        if st.rankLabels = [] then expand_nps_if_needed t st.options
        else st.options
      st.acc ++ [⟨t, opts, st.rankLabels, st.isBipolar⟩]
    else st.acc
  | none => st.acc

/-- The bipolar skip (`skip_to`, lines 302-308): first row index ≥ `j` whose
first cell is a question row, or `g.length`. The first argument of the
worker is a structural-recursion bound; `g.length + 1` always suffices. -/
def findNextAux (g : Grid) : Nat → Nat → Nat
  | 0, j => j
  | fuel + 1, j =>
    if j < g.length then
      if is_question_row (firstCellStr g j) then j
      else findNextAux g fuel (j + 1)
    else j

/-- The first question-row index at or after `j` (or `g.length`). -/
def findNextQuestionRow (g : Grid) (j : Nat) : Nat :=
  findNextAux g (g.length + 1) j

/-- The matrix detection inside the header branch (lines 311-339): ranks from
the row after the header, attributes from the rows after that; both must have
at least two entries. Returns `(options, rank_labels)`. -/
def matrixDetect (g : Grid) (idx : Nat) : List String × List String :=
  if idx + 1 < g.length then
    let ranks := collectRanks (g.getD (idx + 1) [])
    if ranks.length ≥ 2 then
      let attributes := collectAttrs g (idx + 2)
      if attributes.length ≥ 2 then (attributes, ranks) else ([], [])
    else ([], [])
  else ([], [])

/-- The `while idx < len(df)` loop of `clean_and_convert`. `fuel` is a
structural-recursion bound: every iteration advances `idx` by at least one,
so any `fuel > g.length` makes the fuel-exhaustion branch unreachable; it
returns the same `flushState st` as the loop-exit branch regardless. -/
def segLoop (g : Grid) : Nat → Nat → SegState → List ParsedQuestion
  | 0, _, st => flushState st
  | fuel + 1, idx, st =>
    if idx < g.length then
      let first := firstCellStr g idx
      if first = "" then
        segLoop g fuel (idx + 1) ⟨none, [], [], false, false, flushState st⟩
      else if is_question_row first then
        let acc' := flushState st
        let qText := questionTitle first
        let (bipolarLabels, p1, p2) := detect_bipolar_question g idx
        if bipolarLabels ≠ [] then
          let st' : SegState :=
            ⟨some qText, bipolarLabels,
             [p1.getD "Pole_1", p2.getD "Pole_2"], true, true, acc'⟩
          segLoop g fuel (findNextQuestionRow g (idx + 1)) st'
        else
          let (mOpts, mRanks) := matrixDetect g idx
          let opts :=
            if mRanks = [] then
              let scale := detect_horizontal_scale g idx
              if scale ≠ [] then scale else mOpts
            else mOpts
          segLoop g fuel (idx + 1) ⟨some qText, opts, mRanks, false, true, acc'⟩
      else
        if st.inQuestion ∧ st.rankLabels = [] then
          if !is_metadata_text first && lowerStr first ≠ "answer choices" then
            segLoop g fuel (idx + 1) { st with options := st.options ++ [first] }
          else segLoop g fuel (idx + 1) st
        else segLoop g fuel (idx + 1) st
    else flushState st

/-- The question list produced by `clean_and_convert` (and identically by
`_parse_questions_from_file`) on grid `g`. -/
def clean_and_convert_questions (g : Grid) : List ParsedQuestion :=
  segLoop g (g.length + 1) 0 ⟨none, [], [], false, false, []⟩

/-! ## Options-file loading: bipolar pole pairs
(`SurveyDatabookV2.load_options_file`, lines 511-528) -/

/-- Try the regex `\s+or\s+` anchored at the head of `cs` (case-insensitive
`or`): a nonempty whitespace run, then `or`, then a nonempty whitespace run
consumed greedily. Returns the remainder after the match. -/
def tryWsOr (cs : List Char) : Option (List Char) :=
  match cs with
  | [] => none
  | c :: _ =>
    if isPyWs c then
      match cs.dropWhile isPyWs with
      | o :: r :: rest2 =>
        if (o = 'o' || o = 'O') && (r = 'r' || r = 'R') then
          match rest2 with
          | w :: _ =>
            if isPyWs w then some (rest2.dropWhile isPyWs) else none
          | [] => none
        else none
      | _ => none
    else none

/-- `re.split(r'\s+or\s+', opt, maxsplit=1, flags=IGNORECASE)` restricted to
the first two parts: leftmost match wins; returns (before, after). -/
def wsOrFind : List Char → Option (List Char × List Char)
  | [] => none
  | c :: cs =>
    match tryWsOr (c :: cs) with
    | some tail => some ([], tail)
    | none => (wsOrFind cs).map (fun p => (c :: p.1, p.2))

/-- The per-option pole split of the bipolar branch (lines 514-519):
options containing `" or "` (lowercased) are split at the first
`\s+or\s+` match with both parts stripped; other options pair with `""`.
The `(opt, "")` fallback on the guarded branch is unreachable — the guard
guarantees a match. -/
def bipolar_pole_pair (opt : String) : String × String :=
  if strContains (lowerStr opt) " or " then
    match wsOrFind opt.data with
    | some (a, b) => (pyStrip ⟨a⟩, pyStrip ⟨b⟩)
    | none => (opt, "")
  else (opt, "")

/-- The `pole_pairs` list built for a Bipolar question's options. -/
def bipolar_pole_pairs (options : List String) : List (String × String) :=
  options.map bipolar_pole_pair

/-! ## Tabulation engine (`SurveyDatabookV2`, lines 632-891) -/

/-- `merge_unnamed_columns` on one row (lines 637-646): the row's cells are
given as main column first, then its unnamed continuation columns, in order. -/
def mergeRow (cells : List Cell) : Option String :=
  let values := cells.filterMap (fun c =>
    match c with
    | none => none
    | some s =>
      let t := pyStrip s
      if t ≠ "" then some t else none)
  if values = [] then none else some (String.intercalate ", " values)

/-- `merge_unnamed_columns` (line 632): one merged value per data row. -/
def merge_unnamed_columns (rows : List (List Cell)) : List Cell :=
  rows.map mergeRow

/-- Does a row (main cell plus continuation cells) hold at least one
non-blank value? This is exactly the condition under which `mergeRow`
produces a merged value rather than `None`. -/
def rowHasValue (cells : List Cell) : Bool :=
  cells.any (fun c =>
    match c with
    | some s => decide (pyStrip s ≠ "")
    | none => false)

/-- Is the first `(` or `)` at-or-after this position a `)`? This is the
lookahead `[^()]*\)` of the multi-select split pattern. -/
def firstParenIsClose : List Char → Bool
  | [] => false
  | c :: rest =>
    if c = '(' then false
    else if c = ')' then true
    else firstParenIsClose rest

/-- `re.split(r',\s*(?![^()]*\))', text)` (line 650): split at a comma whose
lookahead fails. The lookahead's outcome does not depend on how much
whitespace `\s*` consumed, because whitespace is never a parenthesis; and
the separator's trailing whitespace run is left on the front of the next
part here, which is invisible after the strip-and-drop-empties step below
and changes no later split decision (whitespace is neither a comma nor a
parenthesis). -/
def splitMSAux : List Char → List Char → List (List Char)
  | [], acc => [acc.reverse]
  | ',' :: rest, acc =>
    if firstParenIsClose rest then splitMSAux rest (',' :: acc)
    else acc.reverse :: splitMSAux rest []
  | c :: rest, acc => splitMSAux rest (c :: acc)

/-- `split_multi_select_options` (line 650): split, strip each part, drop
empties. -/
def split_multi_select_options (text : String) : List String :=
  ((splitMSAux text.data []).map (fun cs => pyStrip ⟨cs⟩)).filter (fun p => p ≠ "")

/-- One row of a single/multi-select tabulation result. -/
structure TabRow where
  option : String
  count : Nat
  percentage : ℚ
  base : Nat
deriving Repr, DecidableEq

/-- The series cleaning of `process_single_select` (lines 656-659): drop
`NaN`, the `Response` / `Open-Ended Response` placeholders, and values blank
after strip. -/
def clean_series (series : List Cell) : List String :=
  (((series.filterMap id).filter (fun s => s ≠ "Response")).filter
    (fun s => s ≠ "Open-Ended Response")).filter (fun s => pyStrip s ≠ "")

/-- `process_single_select` (line 655). With a declared option list, one row
per option with its exact-match count; otherwise the observed values
(first-occurrence order) sorted by count descending. -/
def process_single_select (series : List Cell) (options : List String) :
    List TabRow :=
  let sc := clean_series series
  let total_base := sc.length
  if options ≠ [] then
    options.map (fun o =>
      ⟨o, sc.count o,
       if total_base > 0 then pyRound1 ((sc.count o : ℚ) / total_base * 100) else 0,
       total_base⟩)
  else
    (sc.dedup.map (fun o =>
      ⟨o, sc.count o,
       if total_base > 0 then pyRound1 ((sc.count o : ℚ) / total_base * 100) else 0,
       total_base⟩)).insertionSort (fun a b => a.count ≥ b.count)

/-- The token extraction of `process_multi_select` (lines 688-692) for one
non-`NaN` value. -/
def tokensOfVal (val : String) : List String :=
  let val_str := pyStrip val
  if val_str ≠ "" && val_str ≠ "Response" && val_str ≠ "Open-Ended Response" then
    split_multi_select_options val_str
  else []

/-- `all_options` of `process_multi_select`: every token of every non-`NaN`
value, in order. -/
def multiTokens (series : List Cell) : List String :=
  (series.filterMap id).foldr (fun val acc => tokensOfVal val ++ acc) []

/-- The count of non-`NaN` rows used as the multi-select base
(`total_base = len(series.dropna())`, line 695). -/
def multiBase (series : List Cell) : Nat :=
  (series.filterMap id).length

/-- `process_multi_select` (line 686). -/
def process_multi_select (series : List Cell) (options : List String) :
    List TabRow :=
  let all_options := multiTokens series
  let total_base := multiBase series
  if options ≠ [] then
    options.map (fun o =>
      ⟨o, all_options.count o,
       if total_base > 0 then
         pyRound1 ((all_options.count o : ℚ) / total_base * 100)
       else 0,
       total_base⟩)
  else
    (all_options.dedup.map (fun o =>
      ⟨o, all_options.count o,
       if total_base > 0 then
         pyRound1 ((all_options.count o : ℚ) / total_base * 100)
       else 0,
       total_base⟩)).insertionSort (fun a b => a.count ≥ b.count)

/-! ## Matrix processor (`process_matrix`, lines 799-891) -/

/-- One entry of the matrix `column_mapping`. -/
structure ColMap where
  col_idx : Nat
  attr : String
  rank_label : Option String
deriving Repr, DecidableEq

/-- One percentage/count cell of the matrix result, keyed by rank label. -/
structure MatrixCell where
  rank_label : String
  count : Nat
  percentage : ℚ
deriving Repr, DecidableEq

/-- One attribute row of the matrix result. -/
structure MatrixRow where
  attr : String
  cells : List MatrixCell
deriving Repr, DecidableEq

/-- The matrix tabulation result. -/
structure MatrixResult where
  data : List MatrixRow
  base : Nat
  is_multi_select_matrix : Bool
  column_mapping : List ColMap
deriving Repr, DecidableEq

/-- Split at the first occurrence of `pat` (Python `s.split(pat, 1)` when
`pat` occurs). -/
def splitFirstL (pat : List Char) : List Char → Option (List Char × List Char)
  | [] => none
  | c :: cs =>
    if pat.isPrefixOf (c :: cs) then some ([], (c :: cs).drop pat.length)
    else (splitFirstL pat cs).map (fun p => (c :: p.1, p.2))

/-- The combined-header split `raw.split(' - ', 1)` with both sides stripped
(line 830). -/
def splitDash (raw : String) : String × String :=
  match splitFirstL [' ', '-', ' '] raw.data with
  | some (l, r) => (pyStrip ⟨l⟩, pyStrip ⟨r⟩)
  | none => (pyStrip raw, "")

/-- The multi-select-matrix heuristic (lines 809-816): at least half of the
first ten mapped columns (and at least one) have a `" - "` combined
sub-header. The float comparison `combined >= max(1, len(sample) * 0.5)`
is exact for these magnitudes and is stated here over integers
(both sides doubled). -/
def isMultiSelectMatrix (subHeaders : List Cell) (all_cols : List Nat) : Bool :=
  let sample_cols := all_cols.take 10
  let combined := (sample_cols.filter (fun c =>
    match cellAt subHeaders c with
    | some h => strContains h " - "
    | none => false)).length
  decide (1 ≤ combined) && decide (sample_cols.length ≤ 2 * combined)

/-- The `column_mapping` construction (lines 818-847). `subHeaders` is row 1
of the full raw-data frame (`df_full.iloc[1, col]`). -/
def matrixColumnMapping (subHeaders : List Cell) (all_cols : List Nat)
    (rank_labels : List String) (msm : Bool) : List ColMap :=
  if msm then
    all_cols.filterMap (fun col =>
      match cellAt subHeaders col with
      | none => none
      | some h =>
        let raw := pyStrip h
        if !strContains raw " - " then none
        else
          let (left, right) := splitDash raw
          if rank_labels.contains left then some ⟨col, right, some left⟩
          else if rank_labels.contains right then some ⟨col, left, some right⟩
          else some ⟨col, right, some left⟩)
  else
    all_cols.filterMap (fun col =>
      match cellAt subHeaders col with
      | none => none
      | some h =>
        let attrVal := pyStrip h
        if attrVal = "" then none
        else some ⟨col, attrVal, none⟩)

/-- The cell count of the matrix tabulation (lines 855-875): over every data
row and matching column, multi-select mode counts any non-blank cell, single
mode counts cells equal (after strip) to the rank label. -/
def matrixCount (dataRows : List (List Cell)) (matching : List Nat)
    (rank_label : String) (msm : Bool) : Nat :=
  (dataRows.map (fun row =>
    (matching.filter (fun col =>
      match cellAt row col with
      | none => false
      | some v =>
        if msm then pyStrip v ≠ ""
        else pyStrip v = rank_label)).length)).sum

/-- `process_matrix` (line 799). `subHeaders` is row 1 of `df_full`,
`dataRows` the filtered respondent rows, `all_cols` the main column index
followed by the unnamed continuation indices. -/
def process_matrix (subHeaders : List Cell) (dataRows : List (List Cell))
    (all_cols : List Nat) (options rank_labels : List String) : MatrixResult :=
  let msm := isMultiSelectMatrix subHeaders all_cols
  let column_mapping := matrixColumnMapping subHeaders all_cols rank_labels msm
  let total_responses := dataRows.length
  let data := options.map (fun option_attribute =>
    ⟨option_attribute,
     rank_labels.map (fun rank_label =>
       let matching :=
         if msm then
           (column_mapping.filter (fun cm =>
             cm.attr = option_attribute && cm.rank_label = some rank_label)).map
             (fun cm => cm.col_idx)
         else
           (column_mapping.filter (fun cm =>
             cm.attr = option_attribute)).map (fun cm => cm.col_idx)
       let count := matrixCount dataRows matching rank_label msm
       ⟨rank_label, count,
        if total_responses > 0 then
          pyRound1 ((count : ℚ) / total_responses * 100)
        else 0⟩)⟩)
  ⟨data, total_responses, msm, column_mapping⟩

/-! ## Formula mutation helpers (lines 1396-1425) -/

/-- `get_column_letter` / `get_excel_column_letter` (line 475): bijective
base-26 column letters, `1 ↦ A`, `26 ↦ Z`, `27 ↦ AA`. The first argument is
a structural-recursion bound; each loop iteration divides the column number
by 26, so any bound ≥ the column number suffices and the bound-exhaustion
branch is unreachable. -/
def colLetterAux : Nat → Nat → List Char → List Char
  | 0, _, acc => acc
  | fuel + 1, n, acc =>
    match n with
    | 0 => acc
    | m + 1 => colLetterAux fuel (m / 26) (Char.ofNat (65 + m % 26) :: acc)

/-- `get_column_letter` on a 1-based column number. -/
def get_column_letter (n : Nat) : String :=
  ⟨colLetterAux n n []⟩

/-- An absolute cell reference `$<col>$<row>`. -/
def cellRef (col : String) (row : Nat) : String :=
  "$" ++ col ++ "$" ++ toString row

/-- `add_demographic_filter_to_formula` (line 1396): append
`, 'Raw Data'!$<cut>$3:$<cut>$8000,<ref>` before the final `)` of the body
(the part after an optional leading `=`), and re-prefix `=`; formulas whose
body does not end in `)` (including the empty formula) are returned
unchanged. -/
def add_demographic_filter_to_formula (formula cut_raw_col_letter header_cell_ref : String) :
    String :=
  if formula = "" then formula
  else
    let f_str_body :=
      if pyStartsWith formula "=" then strDrop formula 1 else formula
    if !pyEndsWith f_str_body ")" then formula
    else
      "=" ++ strDropRight f_str_body 1 ++ ", 'Raw Data'!$" ++ cut_raw_col_letter ++
        "$3:$" ++ cut_raw_col_letter ++ "$8000," ++ header_cell_ref ++ ")"

/-- `modify_multiple_select_n_formula` (line 1413): for a stripped formula
starting with `=SUMPRODUCT` (case-insensitive) and ending in `*1)`, insert
the multiplicative demographic-filter term before the trailing `*1)`;
anything else is returned unchanged. -/
def modify_multiple_select_n_formula (base_formula cut_raw_col_letter header_cell_ref : String) :
    String :=
  if base_formula = "" then base_formula
  else
    let f_str := pyStrip base_formula
    if !pyStartsWith (upperStr f_str) "=SUMPRODUCT" then base_formula
    else if !pyEndsWith f_str "*1)" then base_formula
    else
      strDropRight f_str 3 ++ "*('Raw Data'!$" ++ cut_raw_col_letter ++
        "$3:$" ++ cut_raw_col_letter ++ "$8000=" ++ header_cell_ref ++ ")" ++ "*1)"

/-! ## Cuts engine layout (`apply_cuts_to_databook`, lines 1550-1582) -/

/-- One cut definition (`load_cuts_from_template` record). -/
structure CutDef where
  raw_col_index : Nat
  categories : List String
deriving Repr, DecidableEq

/-- The shape of one discovered question block that the width computation
reads (`find_question_blocks` record). -/
structure BlockInfo where
  is_matrix : Bool
  is_bipolar : Bool
  num_rating_cols : Nat
deriving Repr, DecidableEq

/-- One allocated cut column block. -/
structure CutBlock where
  start_col : Nat
  end_col : Nat
  num_cat : Nat
  max_width : Nat
deriving Repr, DecidableEq

/-- The per-cut width (lines 1561-1568): at least `2 * num_cat`, widened to
`2 * num_rating_cols + 1` for every matrix block and to `5` for every
bipolar block. -/
def maxCutWidth (num_cat : Nat) (blocks : List BlockInfo) : Nat :=
  blocks.foldl
    (fun w b =>
      if b.is_matrix then max w (b.num_rating_cols + 1 + b.num_rating_cols)
      else if b.is_bipolar then max w 5
      else w)
    (2 * num_cat)

/-- The cut-block allocation loop (lines 1557-1582): each cut starts where
the running column counter stands, spans `max_width` columns, and the
counter jumps past its end plus a 6-column gutter (`end_col + 7`). -/
def computeCutBlocks (cuts : List CutDef) (blocks : List BlockInfo)
    (cuts_start_col : Nat) : List CutBlock :=
  (cuts.foldl
    (fun (st : Nat × List CutBlock) cut =>
      let num_cat := cut.categories.length
      let w := maxCutWidth num_cat blocks
      let end_col := st.1 + w - 1
      (end_col + 7, st.2 ++ [⟨st.1, end_col, num_cat, w⟩]))
    (cuts_start_col, [])).2

/-! ## Cut formula rewriting per question type (lines 1612-1828)

Each cut block writes a dropdown cell at row 1 of its `start_col`
(lines 1593-1601). The bipolar branch (lines 1619-1641) and the matrix
branch (lines 1716-1744) build `dropdown_ref = $<letter(start_col)>$1` and
pass it as the filter criterion; the flat single/multiple branch
(lines 1755-1795) instead writes each category literal into the cut block's
header row and passes `header_cell_ref = $<letter(start_col+i)>$<header_row>`
— the per-category header cell, not the dropdown. -/

/-- Bipolar branch, pole-count mutation (lines 1630-1637): criterion is the
dropdown reference `$<letter(start_col)>$1`. -/
def bipolarCutFormula (base : String) (cut_raw_col_letter : String)
    (start_col : Nat) : String :=
  if pyStartsWith base "=" then
    add_demographic_filter_to_formula base cut_raw_col_letter
      (cellRef (get_column_letter start_col) 1)
  else base

/-- Matrix branch, rating-column mutation (lines 1719-1729): criterion is
the dropdown reference `$<letter(start_col)>$1`. -/
def matrixRatingCutFormula (formula : String) (cut_raw_col_letter : String)
    (start_col : Nat) : String :=
  if pyStartsWith formula "=" && pyEndsWith formula ")" then
    strDropRight formula 1 ++ ",'Raw Data'!$" ++ cut_raw_col_letter ++ "$3:$" ++
      cut_raw_col_letter ++ "$8000," ++ cellRef (get_column_letter start_col) 1 ++ ")"
  else formula

/-- Matrix branch, N-column mutation (lines 1734-1744): the SUMPRODUCT gains
one multiplicative term whose criterion is the dropdown reference. -/
def matrixNCutFormula (base_formula : String) (cut_raw_col_letter : String)
    (start_col : Nat) : String :=
  if strContains (upperStr base_formula) "SUMPRODUCT" && pyEndsWith base_formula "*1)" then
    strDropRight base_formula 3 ++ "*('Raw Data'!$" ++ cut_raw_col_letter ++ "$3:$" ++
      cut_raw_col_letter ++ "$8000=" ++ cellRef (get_column_letter start_col) 1 ++ ")" ++ "*1)"
  else base_formula

/-- Flat single/multiple branch, per-category count mutation (non-`COUNTA`
path, lines 1773-1795): the criterion is the cut block's header cell
`$<letter(start_col+i)>$<header_row>` for category index `i` — the cell that
line 1758 fills with that category's literal text. -/
def flatCutCountFormula (base : String) (cut_raw_col_letter : String)
    (start_col i header_row : Nat) : String :=
  add_demographic_filter_to_formula base cut_raw_col_letter
    (cellRef (get_column_letter (start_col + i)) header_row)

/-- The shape facts carried for every allocated cut block. -/
def CutBlockSpec (blocks : List BlockInfo) (cb : CutBlock) : Prop :=
  cb.max_width = maxCutWidth cb.num_cat blocks ∧
  cb.end_col = cb.start_col + cb.max_width - 1


/-! ## Helper lemmas -/

theorem prefixOf_eq {α : Type} [BEq α] [LawfulBEq α] {l m : List α}
    (h : l.isPrefixOf m = true) : l <+: m :=
  List.isPrefixOf_iff_prefix.mp h

theorem suffixOf_eq {α : Type} [BEq α] [LawfulBEq α] {l m : List α}
    (h : l.isSuffixOf m = true) : l <:+ m :=
  List.isSuffixOf_iff_suffix.mp h

theorem eq_prefixOf {α : Type} [BEq α] [LawfulBEq α] {l m : List α}
    (h : l <+: m) : l.isPrefixOf m = true :=
  List.isPrefixOf_iff_prefix.mpr h

theorem eq_suffixOf {α : Type} [BEq α] [LawfulBEq α] {l m : List α}
    (h : l <:+ m) : l.isSuffixOf m = true :=
  List.isSuffixOf_iff_suffix.mpr h

theorem string_data_eq {s t : String} (h : s.data = t.data) : s = t := by
  cases s; cases t; exact congrArg String.mk h

theorem string_mk_ne_empty {cs : List Char} (h : cs ≠ []) : (⟨cs⟩ : String) ≠ "" := by
  intro he
  exact h (congrArg String.data he)

theorem toNat_char_ofNat {n : Nat} (h : n.isValidChar) : (Char.ofNat n).toNat = n := by
  simp only [Char.ofNat, h, dite_true, Char.ofNatAux, Char.toNat]
  rfl

theorem char_eq_of_toNat {c d : Char} (h : c.toNat = d.toNat) : c = d := by
  apply Char.eq_of_val_eq
  exact UInt32.ext h

theorem toLower_eq_char {c t : Char} (h : c.toLower = t) :
    c = t ∨ (c.toNat ≥ 65 ∧ c.toNat ≤ 90 ∧ c.toNat + 32 = t.toNat) := by
  unfold Char.toLower at h
  simp only at h
  by_cases hb : c.toNat ≥ 65 ∧ c.toNat ≤ 90
  · rw [if_pos hb] at h
    right
    have hv : (c.toNat + 32).isValidChar := Or.inl (by omega)
    have h2 := congrArg Char.toNat h
    rw [toNat_char_ofNat hv] at h2
    exact ⟨hb.1, hb.2, h2⟩
  · rw [if_neg hb] at h
    exact Or.inl h

theorem toLower_eq_space {c : Char} (h : c.toLower = ' ') : c = ' ' := by
  rcases toLower_eq_char h with h1 | ⟨hb1, _, h3⟩
  · exact h1
  · exfalso
    have h4 : (' ' : Char).toNat = 32 := rfl
    rw [h4] at h3
    omega

theorem toLower_eq_o {c : Char} (h : c.toLower = 'o') : c = 'o' ∨ c = 'O' := by
  rcases toLower_eq_char h with h1 | ⟨_, _, h3⟩
  · exact Or.inl h1
  · exact Or.inr (char_eq_of_toNat (by simpa using h3))

theorem toLower_eq_r {c : Char} (h : c.toLower = 'r') : c = 'r' ∨ c = 'R' := by
  rcases toLower_eq_char h with h1 | ⟨_, _, h3⟩
  · exact Or.inl h1
  · exact Or.inr (char_eq_of_toNat (by simpa using h3))

theorem length_dropWhile_le {α : Type} (p : α → Bool) (l : List α) :
    (l.dropWhile p).length ≤ l.length :=
  (l.dropWhile_sublist p).length_le

theorem mem_dropWhile_of_not {α : Type} {p : α → Bool} {c : α} :
    ∀ {l : List α}, c ∈ l → p c = false → c ∈ l.dropWhile p := by
  intro l
  induction l with
  | nil => intro h _; cases h
  | cons a t ih =>
    intro hmem hp
    by_cases ha : p a
    · rw [List.dropWhile_cons_of_pos ha]
      rcases List.mem_cons.mp hmem with rfl | ht
      · rw [hp] at ha; cases ha
      · exact ih ht hp
    · rw [List.dropWhile_cons_of_neg ha]
      exact hmem

theorem pyStripL_ne_nil {cs : List Char} {c : Char} (hc : c ∈ cs)
    (hw : isPyWs c = false) : pyStripL cs ≠ [] := by
  unfold pyStripL
  have h1 : c ∈ cs.dropWhile isPyWs := mem_dropWhile_of_not hc hw
  have h2 : c ∈ (cs.dropWhile isPyWs).reverse := List.mem_reverse.mpr h1
  have h3 : c ∈ (cs.dropWhile isPyWs).reverse.dropWhile isPyWs :=
    mem_dropWhile_of_not h2 hw
  have h4 : c ∈ ((cs.dropWhile isPyWs).reverse.dropWhile isPyWs).reverse :=
    List.mem_reverse.mpr h3
  exact List.ne_nil_of_mem h4

theorem dropWhile_eq_self_head {α : Type} {p : α → Bool} {l : List α}
    (h : l.dropWhile p = l) : ∀ c, l.head? = some c → p c = false := by
  intro c hc
  cases l with
  | nil => cases hc
  | cons a t =>
    obtain rfl : a = c := by simpa using hc
    by_cases hp : p a
    · rw [List.dropWhile_cons_of_pos hp] at h
      have hle := length_dropWhile_le p t
      have hlen := congrArg List.length h
      simp only [List.length_cons] at hlen
      omega
    · simpa using hp

theorem pyStripL_eq_self_parts {cs : List Char} (h : pyStripL cs = cs) :
    cs.dropWhile isPyWs = cs ∧ cs.reverse.dropWhile isPyWs = cs.reverse := by
  unfold pyStripL at h
  have hlen := congrArg List.length h
  have l1 : ((cs.dropWhile isPyWs).reverse.dropWhile isPyWs).length ≤
      (cs.dropWhile isPyWs).length := by
    have := length_dropWhile_le isPyWs (cs.dropWhile isPyWs).reverse
    simpa using this
  have l2 : (cs.dropWhile isPyWs).length ≤ cs.length := length_dropWhile_le _ _
  simp only [List.length_reverse] at hlen
  have e2 : (cs.dropWhile isPyWs).length = cs.length := by omega
  have hd1 : cs.dropWhile isPyWs = cs :=
    (List.dropWhile_sublist isPyWs).eq_of_length e2
  rw [hd1] at h
  have : cs.reverse.dropWhile isPyWs = cs.reverse := by
    have := congrArg List.reverse h
    simpa using this
  exact ⟨hd1, this⟩

theorem pyStrip_eq_self_head {s : String} (h : pyStrip s = s) :
    ∀ c, s.data.head? = some c → isPyWs c = false := by
  have hd : pyStripL s.data = s.data := congrArg String.data h
  exact dropWhile_eq_self_head (pyStripL_eq_self_parts hd).1

theorem pyStrip_eq_self_last {s : String} (h : pyStrip s = s) :
    ∀ c, s.data.getLast? = some c → isPyWs c = false := by
  have hd : pyStripL s.data = s.data := congrArg String.data h
  intro c hc
  apply dropWhile_eq_self_head (pyStripL_eq_self_parts hd).2
  rw [List.head?_reverse]
  exact hc

theorem strCat_data (a b : String) : (a ++ b).data = a.data ++ b.data := rfl

theorem add_filter_eq_of_conforming (f c ref : String)
    (hstart : pyStartsWith f "=" = true) (hend : pyEndsWith f ")" = true) :
    add_demographic_filter_to_formula f c ref =
      strDropRight f 1 ++ ", 'Raw Data'!$" ++ c ++ "$3:$" ++ c ++ "$8000," ++
        ref ++ ")" := by
  have hdata : ∃ rest, f.data = '=' :: rest := by
    have := prefixOf_eq hstart
    obtain ⟨t, ht⟩ := this
    exact ⟨t, by simpa using ht.symm⟩
  obtain ⟨rest, hrest⟩ := hdata
  have hfne : f ≠ "" := by
    intro h; rw [h] at hrest; cases hrest
  have hsuf : [')'] <:+ f.data := by
    have := suffixOf_eq hend
    simpa using this
  have hsufrest : [')'] <:+ rest := by
    rw [hrest] at hsuf
    rcases List.suffix_cons_iff.mp hsuf with h | h
    · cases h
    · exact h
  have hrestne : rest ≠ [] := by
    rintro rfl
    rcases hsufrest with ⟨t, ht⟩
    cases t <;> simp_all
  have hbody : pyEndsWith (strDrop f 1) ")" = true := by
    unfold pyEndsWith strDrop
    rw [hrest]
    exact eq_suffixOf (by simpa using hsufrest)
  unfold add_demographic_filter_to_formula
  rw [if_neg hfne, if_pos hstart]
  simp only [hbody, Bool.not_true, Bool.false_eq_true, if_false]
  apply string_data_eq
  simp only [strCat_data]
  unfold strDropRight strDrop
  rw [hrest]
  simp only [List.length_cons]
  have hlen : rest.length + 1 - 1 = (rest.length - 1) + 1 := by
    cases rest with
    | nil => cases hrestne rfl
    | cons a t => simp
  rw [hlen, List.take_succ_cons]
  simp

/-! ## Claim theorems -/

/-- C6: for every parsed question, a non-empty `rank_labels` list forces the
automatically assigned type to be Matrix or Bipolar, never Single or
Multiple: `get_auto_type` returns `"Bipolar"` whenever the bipolar flag is
set, `"Matrix"` whenever `rank_labels` is non-empty and the flag is not set,
and only otherwise falls through to the keyword-based
Single/Multiple/empty classification. -/
theorem C6_rank_labels_type :
    ∀ (q_text : String) (rank_labels options : List String) (is_bipolar : Bool),
    (is_bipolar = true →
      get_auto_type q_text rank_labels options is_bipolar = "Bipolar") ∧
    (is_bipolar = false → rank_labels ≠ [] →
      get_auto_type q_text rank_labels options is_bipolar = "Matrix") ∧
    (rank_labels ≠ [] →
      get_auto_type q_text rank_labels options is_bipolar = "Matrix" ∨
      get_auto_type q_text rank_labels options is_bipolar = "Bipolar") ∧
    (is_bipolar = false → rank_labels = [] →
      get_auto_type q_text rank_labels options is_bipolar ∈
        (["Single", "Multiple", ""] : List String)) := by
  intro q rl opts bip
  unfold get_auto_type
  refine ⟨?_, ?_, ?_, ?_⟩
  · intro hb; simp [hb]
  · intro hb hrl; simp [hb, hrl]
  · intro hrl
    cases bip with
    | true => exact Or.inr (by simp)
    | false => exact Or.inl (by simp [hrl])
  · intro hb hrl
    subst hb; subst hrl
    simp only [if_false, Bool.false_eq_true, ne_eq, not_true_eq_false,
      List.mem_cons]
    by_cases h1 : SINGLE_KEYWORDS.any (fun k => strContains (lowerStr q) k)
    · simp [h1]
    · by_cases h2 : MULTIPLE_KEYWORDS.any (fun k => strContains (lowerStr q) k)
      · simp [h1, h2]
      · simp [h1, h2]

/-- C6 witness: a concrete instantiation of each hypothesis-guarded clause. -/
theorem C6_rank_labels_type_witness :
    get_auto_type "t" ["Agree"] [] false = "Matrix" ∧
    (get_auto_type "t" ["Agree"] [] true = "Matrix" ∨
     get_auto_type "t" ["Agree"] [] true = "Bipolar") ∧
    get_auto_type "Pick one [Single Selection]" [] [] false ∈
      (["Single", "Multiple", ""] : List String) :=
  ⟨(C6_rank_labels_type "t" ["Agree"] [] false).2.1 rfl (by decide),
   (C6_rank_labels_type "t" ["Agree"] [] true).2.2.1 (by decide),
   (C6_rank_labels_type "Pick one [Single Selection]" [] [] false).2.2.2 rfl rfl⟩

/-- C8: multi-select cell splitting divides on commas that are not inside
parentheses: `"Red, Blue (Light, Dark), Green"` yields exactly
`["Red", "Blue (Light, Dark)", "Green"]`, the comma inside the parentheses
staying within a single token. -/
theorem C8_multi_select_split :
    split_multi_select_options "Red, Blue (Light, Dark), Green" =
      ["Red", "Blue (Light, Dark)", "Green"] := by
  rfl

/-- C10 counterexample: the claim says a conforming input is returned with
exactly the demographic-filter arguments inserted before the trailing
suffix and every other character preserved; but a conforming formula that
does not start with `=` additionally gains a leading `=`, so the output is
not the input with only the insertion applied. -/
theorem C10_counterexample :
    add_demographic_filter_to_formula "COUNTIFS(X)" "B" "$C$1" =
      "=COUNTIFS(X, 'Raw Data'!$B$3:$B$8000,$C$1)" ∧
    "=COUNTIFS(X, 'Raw Data'!$B$3:$B$8000,$C$1)" ≠
      "COUNTIFS(X, 'Raw Data'!$B$3:$B$8000,$C$1)" := by
  refine ⟨by rfl, ?_⟩
  decide

/-- C10 (amended): `add_demographic_filter_to_formula` is a no-op whenever
the body after an optional leading `=` does not end with `)`; on a
conforming input that already starts with `=` the output is exactly the
input with the filter arguments inserted before the trailing `)` (an input
without the leading `=` additionally gains one). After stripping
surrounding whitespace (which the function does first),
`modify_multiple_select_n_formula` is a no-op unless the formula starts
with `=SUMPRODUCT` (case-insensitive) and ends with `*1)`, in which case
the filter term is inserted before the trailing `*1)`. -/
theorem C10_formula_mutation :
    ∀ (f c ref : String),
    (pyEndsWith (if pyStartsWith f "=" then strDrop f 1 else f) ")" = false →
      add_demographic_filter_to_formula f c ref = f) ∧
    (pyStartsWith f "=" = true → pyEndsWith f ")" = true →
      add_demographic_filter_to_formula f c ref =
        strDropRight f 1 ++ ", 'Raw Data'!$" ++ c ++ "$3:$" ++ c ++
          "$8000," ++ ref ++ ")") ∧
    (pyStrip f = f →
      ¬(pyStartsWith (upperStr f) "=SUMPRODUCT" = true ∧ pyEndsWith f "*1)" = true) →
      modify_multiple_select_n_formula f c ref = f) ∧
    (pyStrip f = f → pyStartsWith (upperStr f) "=SUMPRODUCT" = true →
      pyEndsWith f "*1)" = true →
      modify_multiple_select_n_formula f c ref =
        strDropRight f 3 ++ "*('Raw Data'!$" ++ c ++ "$3:$" ++ c ++
          "$8000=" ++ ref ++ ")*1)") := by
  intro f c ref
  refine ⟨?_, ?_, ?_, ?_⟩
  · intro hend
    unfold add_demographic_filter_to_formula
    by_cases hf : f = ""
    · simp [hf]
    · simp [hf, hend]
  · intro hstart hend
    exact add_filter_eq_of_conforming f c ref hstart hend
  · intro hstrip hncond
    unfold modify_multiple_select_n_formula
    by_cases hf : f = ""
    · simp [hf]
    · rw [if_neg hf, hstrip]
      by_cases h1 : pyStartsWith (upperStr f) "=SUMPRODUCT" = true
      · have h2 : pyEndsWith f "*1)" = false := by
          rcases Bool.eq_false_or_eq_true (pyEndsWith f "*1)") with h | h
          · exact absurd ⟨h1, h⟩ hncond
          · exact h
        simp [h1, h2]
      · have h1' : pyStartsWith (upperStr f) "=SUMPRODUCT" = false := by
          simpa using h1
        simp [h1']
  · intro hstrip h1 h2
    have hfne : f ≠ "" := by
      intro h
      rw [h] at h1
      cases h1
    unfold modify_multiple_select_n_formula
    rw [if_neg hfne]
    simp only [hstrip, h1, h2, Bool.not_true, Bool.false_eq_true, if_false]
    apply string_data_eq
    simp [strCat_data]

/-- C10 witness: the four clauses at concrete conforming and non-conforming
inputs. -/
theorem C10_formula_mutation_witness :
    add_demographic_filter_to_formula "=SUM(B7:B9" "L" "$T$8" = "=SUM(B7:B9" ∧
    add_demographic_filter_to_formula "=COUNTIFS('Raw Data'!$B$3:$B$8000,A9)" "L" "$T$8" =
      strDropRight "=COUNTIFS('Raw Data'!$B$3:$B$8000,A9)" 1 ++
        ", 'Raw Data'!$" ++ "L" ++ "$3:$" ++ "L" ++ "$8000," ++ "$T$8" ++ ")" ∧
    modify_multiple_select_n_formula "=SUM(B)" "L" "$T$8" = "=SUM(B)" ∧
    modify_multiple_select_n_formula
        "=SUMPRODUCT((LEN('Raw Data'!C3:C8000)>0)*1)" "L" "$T$8" =
      strDropRight "=SUMPRODUCT((LEN('Raw Data'!C3:C8000)>0)*1)" 3 ++
        "*('Raw Data'!$" ++ "L" ++ "$3:$" ++ "L" ++ "$8000=" ++ "$T$8" ++ ")*1)" :=
  ⟨(C10_formula_mutation "=SUM(B7:B9" "L" "$T$8").1 (by decide),
   (C10_formula_mutation "=COUNTIFS('Raw Data'!$B$3:$B$8000,A9)" "L" "$T$8").2.1
     (by decide) (by decide),
   (C10_formula_mutation "=SUM(B)" "L" "$T$8").2.2.1 (by decide) (by decide),
   (C10_formula_mutation "=SUMPRODUCT((LEN('Raw Data'!C3:C8000)>0)*1)" "L" "$T$8").2.2.2
     (by decide) (by decide) (by decide)⟩

theorem maxCutWidth_step_mono (w : Nat) (b : BlockInfo) :
    w ≤ (if b.is_matrix then max w (b.num_rating_cols + 1 + b.num_rating_cols)
         else if b.is_bipolar then max w 5 else w) := by
  by_cases h1 : b.is_matrix
  · simp [h1, Nat.le_max_left]
  · by_cases h2 : b.is_bipolar
    · simp [h1, h2, Nat.le_max_left]
    · simp [h1, h2]

theorem maxCutWidth_foldl_ge_init (blocks : List BlockInfo) :
    ∀ init : Nat,
    init ≤ blocks.foldl
      (fun w b =>
        if b.is_matrix then max w (b.num_rating_cols + 1 + b.num_rating_cols)
        else if b.is_bipolar then max w 5 else w) init := by
  induction blocks with
  | nil => intro init; exact Nat.le_refl _
  | cons b rest ih =>
    intro init
    calc init ≤ _ := maxCutWidth_step_mono init b
    _ ≤ _ := ih _

theorem maxCutWidth_ge_numcat (num_cat : Nat) (blocks : List BlockInfo) :
    2 * num_cat ≤ maxCutWidth num_cat blocks :=
  maxCutWidth_foldl_ge_init blocks (2 * num_cat)

theorem foldl_width_ge_block {blocks : List BlockInfo} {b : BlockInfo}
    (hb : b ∈ blocks) :
    ∀ init : Nat,
    (b.is_matrix = true →
      2 * b.num_rating_cols + 1 ≤ blocks.foldl
        (fun w bl =>
          if bl.is_matrix then max w (bl.num_rating_cols + 1 + bl.num_rating_cols)
          else if bl.is_bipolar then max w 5 else w) init) ∧
    (b.is_matrix = false → b.is_bipolar = true →
      5 ≤ blocks.foldl
        (fun w bl =>
          if bl.is_matrix then max w (bl.num_rating_cols + 1 + bl.num_rating_cols)
          else if bl.is_bipolar then max w 5 else w) init) := by
  induction blocks with
  | nil => cases hb
  | cons a rest ih =>
    intro init
    rcases List.mem_cons.mp hb with rfl | hmem
    · constructor
      · intro hm
        simp only [List.foldl_cons, hm, if_true]
        calc 2 * b.num_rating_cols + 1
            ≤ max init (b.num_rating_cols + 1 + b.num_rating_cols) := by
              have h : b.num_rating_cols + 1 + b.num_rating_cols =
                  2 * b.num_rating_cols + 1 := by omega
              rw [h]
              exact Nat.le_max_right _ _
        _ ≤ _ := maxCutWidth_foldl_ge_init rest _
      · intro hm hbip
        simp only [List.foldl_cons, hm, Bool.false_eq_true, if_false, hbip,
          if_true]
        calc 5 ≤ max init 5 := Nat.le_max_right _ _
        _ ≤ _ := maxCutWidth_foldl_ge_init rest _
    · simpa using ih hmem _

theorem maxCutWidth_ge_block {num_cat : Nat} {blocks : List BlockInfo}
    {b : BlockInfo} (hb : b ∈ blocks) :
    (b.is_matrix = true →
      2 * b.num_rating_cols + 1 ≤ maxCutWidth num_cat blocks) ∧
    (b.is_matrix = false → b.is_bipolar = true →
      5 ≤ maxCutWidth num_cat blocks) :=
  foldl_width_ge_block hb (2 * num_cat)

theorem computeCutBlocks_go (blocks : List BlockInfo) :
    ∀ (cuts : List CutDef) (start : Nat) (acc : List CutBlock),
    (∀ cb ∈ acc, cb.end_col + 7 ≤ start) →
    acc.Pairwise (fun a b => a.end_col < b.start_col) →
    (∀ cb ∈ acc, CutBlockSpec blocks cb) →
    ((cuts.foldl
        (fun (st : Nat × List CutBlock) cut =>
          let num_cat := cut.categories.length
          let w := maxCutWidth num_cat blocks
          let end_col := st.1 + w - 1
          (end_col + 7, st.2 ++ [⟨st.1, end_col, num_cat, w⟩]))
        (start, acc)).2.Pairwise (fun a b => a.end_col < b.start_col)) ∧
    ∀ cb ∈ (cuts.foldl
        (fun (st : Nat × List CutBlock) cut =>
          let num_cat := cut.categories.length
          let w := maxCutWidth num_cat blocks
          let end_col := st.1 + w - 1
          (end_col + 7, st.2 ++ [⟨st.1, end_col, num_cat, w⟩]))
        (start, acc)).2, CutBlockSpec blocks cb := by
  intro cuts
  induction cuts with
  | nil =>
    intro start acc hbound hpair hspec
    exact ⟨hpair, hspec⟩
  | cons c rest ih =>
    intro start acc hbound hpair hspec
    simp only [List.foldl_cons]
    set w := maxCutWidth c.categories.length blocks with hw
    set newBlock : CutBlock := ⟨start, start + w - 1, c.categories.length, w⟩
      with hnew
    apply ih (start + w - 1 + 7) (acc ++ [newBlock])
    · intro cb hcb
      rcases List.mem_append.mp hcb with hacc | hsingle
      · have := hbound cb hacc
        omega
      · have : cb = newBlock := by simpa using hsingle
        subst this
        simp [hnew]
    · rw [List.pairwise_append]
      refine ⟨hpair, List.pairwise_singleton _ _, ?_⟩
      intro a ha b hb
      have : b = newBlock := by simpa using hb
      subst this
      have := hbound a ha
      simp only [hnew]
      omega
    · intro cb hcb
      rcases List.mem_append.mp hcb with hacc | hsingle
      · exact hspec cb hacc
      · have : cb = newBlock := by simpa using hsingle
        subst this
        exact ⟨rfl, rfl⟩

/-- C7: the cut-block allocation never lets two cuts' column ranges overlap
(every earlier block's `end_col` lies strictly left of every later block's
`start_col`), and each cut's allocated width is at least `2 × num_cat` for
its own category list, at least `2 × num_rating_cols + 1` for every matrix
block, and at least `5` for every (non-matrix) bipolar block. -/
theorem C7_cut_layout :
    ∀ (cuts : List CutDef) (blocks : List BlockInfo) (cuts_start_col : Nat),
    (computeCutBlocks cuts blocks cuts_start_col).Pairwise
      (fun a b => a.end_col < b.start_col) ∧
    ∀ cb ∈ computeCutBlocks cuts blocks cuts_start_col,
      cb.end_col = cb.start_col + cb.max_width - 1 ∧
      2 * cb.num_cat ≤ cb.max_width ∧
      ∀ b ∈ blocks,
        (b.is_matrix = true → 2 * b.num_rating_cols + 1 ≤ cb.max_width) ∧
        (b.is_matrix = false → b.is_bipolar = true → 5 ≤ cb.max_width) := by
  intro cuts blocks cuts_start_col
  have h := computeCutBlocks_go blocks cuts cuts_start_col []
    (by intro cb hcb; cases hcb) (List.Pairwise.nil)
    (by intro cb hcb; cases hcb)
  refine ⟨h.1, ?_⟩
  intro cb hcb
  have hspec := h.2 cb hcb
  refine ⟨hspec.2, ?_, ?_⟩
  · rw [hspec.1]
    exact maxCutWidth_ge_numcat _ _
  · intro b hb
    rw [hspec.1]
    exact maxCutWidth_ge_block hb

/-- C7 witness: one cut over one matrix block; the allocated block is
`start 10, end 18, width 9 = 2·4+1`, which covers both bounds. -/
theorem C7_cut_layout_witness :
    (⟨10, 18, 2, 9⟩ : CutBlock).end_col =
      (⟨10, 18, 2, 9⟩ : CutBlock).start_col +
        (⟨10, 18, 2, 9⟩ : CutBlock).max_width - 1 ∧
    2 * (⟨10, 18, 2, 9⟩ : CutBlock).num_cat ≤
      (⟨10, 18, 2, 9⟩ : CutBlock).max_width ∧
    2 * (⟨true, false, 4⟩ : BlockInfo).num_rating_cols + 1 ≤
      (⟨10, 18, 2, 9⟩ : CutBlock).max_width := by
  have h := (C7_cut_layout [⟨5, ["Male", "Female"]⟩] [⟨true, false, 4⟩] 10).2
    ⟨10, 18, 2, 9⟩ (by decide)
  exact ⟨h.1, h.2.1, (h.2.2 ⟨true, false, 4⟩ (by decide)).1 rfl⟩

/-- C1 counterexample: in the flat single/multiple cut branch the mutated
count formula's filter criterion is the per-category header cell of the cut
block (here `$T$8`: column 20 = `T`, header row 8), not the dropdown cell
`$T$1` at the top of the cut's column block — the produced formula never
references the dropdown, so changing the dropdown cannot re-filter flat
question columns. -/
theorem C1_counterexample :
    flatCutCountFormula "=COUNTIFS('Raw Data'!$B$3:$B$8000,A9)" "L" 20 0 8 =
      "=COUNTIFS('Raw Data'!$B$3:$B$8000,A9, 'Raw Data'!$L$3:$L$8000,$T$8)" ∧
    strContains
      (flatCutCountFormula "=COUNTIFS('Raw Data'!$B$3:$B$8000,A9)" "L" 20 0 8)
      (cellRef (get_column_letter 20) 1) = false ∧
    cellRef (get_column_letter 20) 1 = "$T$1" :=
  ⟨by decide, by decide, by decide⟩

/-- C1 (amended): the bipolar and matrix cut branches insert the single
dropdown cell reference `$<col(start_col)>$1` (row 1 at the top of the
cut's column block) as the demographic filter criterion, so the dropdown
re-filters matrix and bipolar cut columns live; the flat single/multiple
branch instead inserts the per-category header cell reference
`$<col(start_col+i)>$<header_row>` — the cell holding that category's
literal text — so flat cut columns are fixed per category and do not follow
the dropdown. -/
theorem C1_cut_filter_criterion :
    ∀ (base cutL : String) (start_col i header_row : Nat),
    (pyStartsWith base "=" = true → pyEndsWith base ")" = true →
      bipolarCutFormula base cutL start_col =
        strDropRight base 1 ++ ", 'Raw Data'!$" ++ cutL ++ "$3:$" ++ cutL ++
          "$8000," ++ cellRef (get_column_letter start_col) 1 ++ ")") ∧
    (pyStartsWith base "=" = true → pyEndsWith base ")" = true →
      matrixRatingCutFormula base cutL start_col =
        strDropRight base 1 ++ ",'Raw Data'!$" ++ cutL ++ "$3:$" ++ cutL ++
          "$8000," ++ cellRef (get_column_letter start_col) 1 ++ ")") ∧
    (strContains (upperStr base) "SUMPRODUCT" = true →
      pyEndsWith base "*1)" = true →
      matrixNCutFormula base cutL start_col =
        strDropRight base 3 ++ "*('Raw Data'!$" ++ cutL ++ "$3:$" ++ cutL ++
          "$8000=" ++ cellRef (get_column_letter start_col) 1 ++ ")*1)") ∧
    (pyStartsWith base "=" = true → pyEndsWith base ")" = true →
      flatCutCountFormula base cutL start_col i header_row =
        strDropRight base 1 ++ ", 'Raw Data'!$" ++ cutL ++ "$3:$" ++ cutL ++
          "$8000," ++ cellRef (get_column_letter (start_col + i)) header_row ++
          ")") := by
  intro base cutL start_col i header_row
  refine ⟨?_, ?_, ?_, ?_⟩
  · intro hstart hend
    unfold bipolarCutFormula
    rw [if_pos hstart]
    exact add_filter_eq_of_conforming base cutL _ hstart hend
  · intro hstart hend
    unfold matrixRatingCutFormula
    rw [hstart, hend]
    simp only [Bool.and_self, if_true]
  · intro hsp hend
    unfold matrixNCutFormula
    rw [hsp, hend]
    simp only [Bool.and_self, if_true]
    apply string_data_eq
    simp [strCat_data, List.append_assoc]
  · intro hstart hend
    unfold flatCutCountFormula
    exact add_filter_eq_of_conforming base cutL _ hstart hend

/-- C1 witness: the four clauses at a concrete conforming formula; the
`SUMPRODUCT` clause at a concrete multi-select N formula. -/
theorem C1_cut_filter_criterion_witness :
    bipolarCutFormula "=COUNTIFS('Raw Data'!$C$3:$C$8000,A9)" "L" 20 =
      strDropRight "=COUNTIFS('Raw Data'!$C$3:$C$8000,A9)" 1 ++
        ", 'Raw Data'!$" ++ "L" ++ "$3:$" ++ "L" ++ "$8000," ++
        cellRef (get_column_letter 20) 1 ++ ")" ∧
    matrixRatingCutFormula "=COUNTIFS('Raw Data'!$C$3:$C$8000,A9)" "L" 20 =
      strDropRight "=COUNTIFS('Raw Data'!$C$3:$C$8000,A9)" 1 ++
        ",'Raw Data'!$" ++ "L" ++ "$3:$" ++ "L" ++ "$8000," ++
        cellRef (get_column_letter 20) 1 ++ ")" ∧
    matrixNCutFormula "=SUMPRODUCT((LEN('Raw Data'!$D$3:$D$8000)>0)*1)" "L" 20 =
      strDropRight "=SUMPRODUCT((LEN('Raw Data'!$D$3:$D$8000)>0)*1)" 3 ++
        "*('Raw Data'!$" ++ "L" ++ "$3:$" ++ "L" ++ "$8000=" ++
        cellRef (get_column_letter 20) 1 ++ ")*1)" ∧
    flatCutCountFormula "=COUNTIFS('Raw Data'!$C$3:$C$8000,A9)" "L" 20 1 8 =
      strDropRight "=COUNTIFS('Raw Data'!$C$3:$C$8000,A9)" 1 ++
        ", 'Raw Data'!$" ++ "L" ++ "$3:$" ++ "L" ++ "$8000," ++
        cellRef (get_column_letter (20 + 1)) 8 ++ ")" :=
  ⟨(C1_cut_filter_criterion "=COUNTIFS('Raw Data'!$C$3:$C$8000,A9)" "L" 20 1 8).1
     (by decide) (by decide),
   (C1_cut_filter_criterion "=COUNTIFS('Raw Data'!$C$3:$C$8000,A9)" "L" 20 1 8).2.1
     (by decide) (by decide),
   (C1_cut_filter_criterion "=SUMPRODUCT((LEN('Raw Data'!$D$3:$D$8000)>0)*1)"
       "L" 20 1 8).2.2.1 (by decide) (by decide),
   (C1_cut_filter_criterion "=COUNTIFS('Raw Data'!$C$3:$C$8000,A9)" "L" 20 1 8).2.2.2
     (by decide) (by decide)⟩

theorem expand_nps_ne_nil {q : String} {opts : List String} (h : opts ≠ []) :
    expand_nps_if_needed q opts ≠ [] := by
  by_cases ht : (strContains (lowerStr q) "1 to 10" ||
      strContains (lowerStr q) "1-10" ||
      strContains (lowerStr q) "scale of 0 to 10") = true
  · simp only [expand_nps_if_needed, ht, if_true]
    exact List.cons_ne_nil _ _
  · have hf : (strContains (lowerStr q) "1 to 10" ||
        strContains (lowerStr q) "1-10" ||
        strContains (lowerStr q) "scale of 0 to 10") = false := by
      simpa using ht
    simp only [expand_nps_if_needed, hf, Bool.false_eq_true, if_false]
    exact h

theorem flushState_sound {st : SegState}
    (h : ∀ q ∈ st.acc, q.options ≠ [] ∨ q.rank_labels ≠ []) :
    ∀ q ∈ flushState st, q.options ≠ [] ∨ q.rank_labels ≠ [] := by
  intro q hq
  unfold flushState at hq
  cases hst : st.qText with
  | none => simp only [hst] at hq; exact h q hq
  | some t =>
    simp only [hst] at hq
    split at hq
    · rename_i hc
      rcases List.mem_append.mp hq with hacc | hnew
      · exact h q hacc
      · have hq' : q = ⟨t,
            if st.rankLabels = [] then expand_nps_if_needed t st.options
            else st.options,
            st.rankLabels, st.isBipolar⟩ := by
          simpa using hnew
        subst hq'
        by_cases hrl : st.rankLabels = []
        · left
          simp only [hrl, if_true]
          have hopts : st.options ≠ [] := by
            rcases hc.2 with ho | hr
            · exact ho
            · exact absurd hrl hr
          exact expand_nps_ne_nil hopts
        · right
          simpa using hrl
    · exact h q hq

theorem segLoop_sound (g : Grid) :
    ∀ (fuel idx : Nat) (st : SegState),
    (∀ q ∈ st.acc, q.options ≠ [] ∨ q.rank_labels ≠ []) →
    ∀ q ∈ segLoop g fuel idx st, q.options ≠ [] ∨ q.rank_labels ≠ [] := by
  intro fuel
  induction fuel with
  | zero =>
    intro idx st h q hq
    exact flushState_sound h q hq
  | succ fuel ih =>
    intro idx st h q hq
    simp only [segLoop] at hq
    repeat
      first
        | exact flushState_sound h q hq
        | (refine ih _ _ ?_ q hq
           intro p hp
           first
             | exact flushState_sound h p hp
             | exact h p hp)
        | split at hq

/-- C2: during segmentation of the raw export grid, the current question
segment is flushed exactly on a blank first cell, on the next
question-header row, or at end of grid, and a flush appends the segment
only if at least one option or rank label was accumulated — otherwise the
segment is silently dropped. Part 1: every emitted question has a
non-empty option list or a non-empty rank-label list, over every grid.
Part 2: a grid whose question header is followed immediately by a blank row
(no options accumulated) emits nothing — the question text never appears.
Part 3: a blank first cell flushes an accumulated segment, and rows after
the flush do not reopen it. -/
theorem C2_segment_flush :
    (∀ g : Grid, ∀ q ∈ clean_and_convert_questions g,
        q.options ≠ [] ∨ q.rank_labels ≠ []) ∧
    clean_and_convert_questions [[some "Q1. Favorite color"], [none]] = [] ∧
    clean_and_convert_questions
        [[some "Q1. Color [Single Selection]"], [some "Red"], [none],
         [some "ignored"]] =
      [⟨"Color [Single Selection]", ["Red"], [], false⟩] := by
  refine ⟨?_, by decide, by decide⟩
  intro g q hq
  exact segLoop_sound g _ _ _ (by intro p hp; cases hp) q hq

/-- C2 witness: part 1 instantiated at the concrete grid of part 3. -/
theorem C2_segment_flush_witness :
    (⟨"Color [Single Selection]", ["Red"], [], false⟩ : ParsedQuestion).options ≠ [] ∨
    (⟨"Color [Single Selection]", ["Red"], [], false⟩ : ParsedQuestion).rank_labels ≠ [] :=
  C2_segment_flush.1
    [[some "Q1. Color [Single Selection]"], [some "Red"], [none], [some "ignored"]]
    ⟨"Color [Single Selection]", ["Red"], [], false⟩ (by decide)

theorem process_single_select_mem {series : List Cell} {options : List String}
    {r : TabRow} (h : r ∈ process_single_select series options) :
    r.base = (clean_series series).length ∧
    r.count = (clean_series series).count r.option ∧
    r.percentage =
      (if r.base > 0 then pyRound1 ((r.count : ℚ) / r.base * 100) else 0) := by
  simp only [process_single_select] at h
  split at h
  · obtain ⟨o, ho, rfl⟩ := List.mem_map.mp h
    exact ⟨rfl, rfl, rfl⟩
  · rw [List.mem_insertionSort] at h
    obtain ⟨o, ho, rfl⟩ := List.mem_map.mp h
    exact ⟨rfl, rfl, rfl⟩

theorem process_multi_select_mem {series : List Cell} {options : List String}
    {r : TabRow} (h : r ∈ process_multi_select series options) :
    r.base = multiBase series ∧
    r.count = (multiTokens series).count r.option ∧
    r.percentage =
      (if r.base > 0 then pyRound1 ((r.count : ℚ) / r.base * 100) else 0) := by
  simp only [process_multi_select] at h
  split at h
  · obtain ⟨o, ho, rfl⟩ := List.mem_map.mp h
    exact ⟨rfl, rfl, rfl⟩
  · rw [List.mem_insertionSort] at h
    obtain ⟨o, ho, rfl⟩ := List.mem_map.mp h
    exact ⟨rfl, rfl, rfl⟩

theorem process_matrix_cell_mem {subH : List Cell} {rows : List (List Cell)}
    {cols : List Nat} {options ranks : List String} {mr : MatrixRow}
    {c : MatrixCell} (hmr : mr ∈ (process_matrix subH rows cols options ranks).data)
    (hc : c ∈ mr.cells) :
    c.percentage =
      (if rows.length > 0 then pyRound1 ((c.count : ℚ) / rows.length * 100)
       else 0) := by
  simp only [process_matrix] at hmr
  obtain ⟨o, ho, rfl⟩ := List.mem_map.mp hmr
  simp only at hc
  obtain ⟨rl, hrl, rfl⟩ := List.mem_map.mp hc
  rfl

/-- C3: on every tabulation path — single-select, multi-select, and matrix
cells — a zero denominator yields the percentage exactly `0` (never a
division error), and a positive denominator yields
`round₁(count / base * 100)`; the single/multi base is the number of
retained (cleaned / non-`NaN`) rows and the matrix base is the respondent
count. -/
theorem C3_percentage_zero_base :
    (∀ (series : List Cell) (options : List String) (r : TabRow),
        r ∈ process_single_select series options →
        r.base = (clean_series series).length ∧
        (r.base = 0 → r.percentage = 0) ∧
        (0 < r.base → r.percentage = pyRound1 ((r.count : ℚ) / r.base * 100))) ∧
    (∀ (series : List Cell) (options : List String) (r : TabRow),
        r ∈ process_multi_select series options →
        r.base = multiBase series ∧
        (r.base = 0 → r.percentage = 0) ∧
        (0 < r.base → r.percentage = pyRound1 ((r.count : ℚ) / r.base * 100))) ∧
    (∀ (subH : List Cell) (rows : List (List Cell)) (cols : List Nat)
        (options ranks : List String) (mr : MatrixRow) (c : MatrixCell),
        mr ∈ (process_matrix subH rows cols options ranks).data →
        c ∈ mr.cells →
        (process_matrix subH rows cols options ranks).base = rows.length ∧
        (rows.length = 0 → c.percentage = 0) ∧
        (0 < rows.length →
          c.percentage = pyRound1 ((c.count : ℚ) / rows.length * 100))) := by
  refine ⟨?_, ?_, ?_⟩
  · intro series options r h
    obtain ⟨hb, _, hp⟩ := process_single_select_mem h
    refine ⟨hb, ?_, ?_⟩
    · intro h0
      rw [hp, h0]
      simp
    · intro hpos
      rw [hp, if_pos hpos]
  · intro series options r h
    obtain ⟨hb, _, hp⟩ := process_multi_select_mem h
    refine ⟨hb, ?_, ?_⟩
    · intro h0
      rw [hp, h0]
      simp
    · intro hpos
      rw [hp, if_pos hpos]
  · intro subH rows cols options ranks mr c hmr hc
    have hp := process_matrix_cell_mem hmr hc
    refine ⟨rfl, ?_, ?_⟩
    · intro h0
      rw [hp, h0]
      simp
    · intro hpos
      rw [hp, if_pos hpos]

/-- C3 witness: the three clauses at concrete one-row inputs with base 1
(the percentage value is carried symbolically, as the stored rational). -/
theorem C3_percentage_zero_base_witness :
    ((⟨"A", 1, pyRound1 (((1 : Nat) : ℚ) / ((1 : Nat) : ℚ) * 100), 1⟩ : TabRow).base =
        (clean_series [some "A"]).length ∧
      ((⟨"A", 1, pyRound1 (((1 : Nat) : ℚ) / ((1 : Nat) : ℚ) * 100), 1⟩ : TabRow).base = 0 →
        (⟨"A", 1, pyRound1 (((1 : Nat) : ℚ) / ((1 : Nat) : ℚ) * 100), 1⟩ : TabRow).percentage = 0) ∧
      (0 < (⟨"A", 1, pyRound1 (((1 : Nat) : ℚ) / ((1 : Nat) : ℚ) * 100), 1⟩ : TabRow).base →
        (⟨"A", 1, pyRound1 (((1 : Nat) : ℚ) / ((1 : Nat) : ℚ) * 100), 1⟩ : TabRow).percentage =
          pyRound1
            (((⟨"A", 1, pyRound1 (((1 : Nat) : ℚ) / ((1 : Nat) : ℚ) * 100), 1⟩ : TabRow).count : ℚ) /
              ((⟨"A", 1, pyRound1 (((1 : Nat) : ℚ) / ((1 : Nat) : ℚ) * 100), 1⟩ : TabRow).base : ℚ) * 100))) ∧
    ((⟨"A", 1, pyRound1 (((1 : Nat) : ℚ) / ((1 : Nat) : ℚ) * 100), 1⟩ : TabRow).base =
        multiBase [some "A, B"] ∧
      ((⟨"A", 1, pyRound1 (((1 : Nat) : ℚ) / ((1 : Nat) : ℚ) * 100), 1⟩ : TabRow).base = 0 →
        (⟨"A", 1, pyRound1 (((1 : Nat) : ℚ) / ((1 : Nat) : ℚ) * 100), 1⟩ : TabRow).percentage = 0) ∧
      (0 < (⟨"A", 1, pyRound1 (((1 : Nat) : ℚ) / ((1 : Nat) : ℚ) * 100), 1⟩ : TabRow).base →
        (⟨"A", 1, pyRound1 (((1 : Nat) : ℚ) / ((1 : Nat) : ℚ) * 100), 1⟩ : TabRow).percentage =
          pyRound1
            (((⟨"A", 1, pyRound1 (((1 : Nat) : ℚ) / ((1 : Nat) : ℚ) * 100), 1⟩ : TabRow).count : ℚ) /
              ((⟨"A", 1, pyRound1 (((1 : Nat) : ℚ) / ((1 : Nat) : ℚ) * 100), 1⟩ : TabRow).base : ℚ) * 100))) ∧
    ((process_matrix [some "Agree"] [[some "Agree"]] [0] ["Agree"] ["Agree"]).base =
        ([[some "Agree"]] : List (List Cell)).length ∧
      (([[some "Agree"]] : List (List Cell)).length = 0 →
        (⟨"Agree", 1, pyRound1 (((1 : Nat) : ℚ) / ((1 : Nat) : ℚ) * 100)⟩ : MatrixCell).percentage = 0) ∧
      (0 < ([[some "Agree"]] : List (List Cell)).length →
        (⟨"Agree", 1, pyRound1 (((1 : Nat) : ℚ) / ((1 : Nat) : ℚ) * 100)⟩ : MatrixCell).percentage =
          pyRound1
            (((⟨"Agree", 1, pyRound1 (((1 : Nat) : ℚ) / ((1 : Nat) : ℚ) * 100)⟩ : MatrixCell).count : ℚ) /
              (([[some "Agree"]] : List (List Cell)).length : ℚ) * 100))) := by
  refine ⟨?_, ?_, ?_⟩
  · exact C3_percentage_zero_base.1 [some "A"] ["A"] _ (List.mem_cons_self _ _)
  · exact C3_percentage_zero_base.2.1 [some "A, B"] ["A"] _ (List.mem_cons_self _ _)
  · exact C3_percentage_zero_base.2.2 [some "Agree"] [[some "Agree"]] [0]
      ["Agree"] ["Agree"] _ _ (List.mem_cons_self _ _) (List.mem_cons_self _ _)

theorem mergeRow_isSome (cells : List Cell) :
    (mergeRow cells).isSome = rowHasValue cells := by
  unfold mergeRow rowHasValue
  induction cells with
  | nil => rfl
  | cons c t ih =>
    cases c with
    | none => simpa using ih
    | some s =>
      by_cases h : pyStrip s = ""
      · simp only [List.filterMap_cons, List.any_cons, h]
        simpa [h] using ih
      · simp [h]

theorem filterMap_id_map_mergeRow_length (rows : List (List Cell)) :
    ((rows.map mergeRow).filterMap id).length =
      (rows.filter rowHasValue).length := by
  induction rows with
  | nil => rfl
  | cons r t ih =>
    simp only [List.map_cons, List.filterMap_cons, List.filter_cons]
    cases hm : mergeRow r with
    | none =>
      have hr : rowHasValue r = false := by
        rw [← mergeRow_isSome, hm]
        rfl
      simpa [hr] using ih
    | some v =>
      have hr : rowHasValue r = true := by
        rw [← mergeRow_isSome, hm]
        rfl
      simpa [hr] using ih

/-- C9 counterexample: a row whose merged value is the placeholder
`"Response"` is non-`NaN`, so it counts into the multi-select base, yet it
contributes no countable token: the reported base is 1 while the number of
rows contributing at least one countable value is 0 — so the base is the
count of non-empty source rows, not the count of rows contributing
countable values. -/
theorem C9_counterexample :
    (process_multi_select [some "Response"] ["X"]).map TabRow.base = [1] ∧
    multiTokens [some "Response"] = [] ∧
    ((([some "Response"] : List Cell).filterMap id).filter
        (fun v => !(tokensOfVal v).isEmpty)).length = 0 :=
  ⟨rfl, rfl, rfl⟩

/-- C9 (amended): in every multi-select tabulation over merged rows, every
token of every non-empty cell is counted independently (each result row's
count is the number of occurrences of its option among the tokens of all
retained merged values), and the reported base is the number of source rows
with at least one non-blank cell — equivalently, the number of non-`NaN`
merged values — which may exceed the number of rows contributing countable
tokens (placeholder rows such as `"Response"` count into the base but yield
no tokens). -/
theorem C9_multi_select_base :
    ∀ (rows : List (List Cell)) (options : List String) (r : TabRow),
    r ∈ process_multi_select (merge_unnamed_columns rows) options →
    r.base = (rows.filter rowHasValue).length ∧
    r.count = (multiTokens (merge_unnamed_columns rows)).count r.option := by
  intro rows options r h
  obtain ⟨hb, hc, _⟩ := process_multi_select_mem h
  refine ⟨?_, hc⟩
  rw [hb]
  unfold multiBase merge_unnamed_columns
  exact filterMap_id_map_mergeRow_length rows

/-- C9 witness: one merged row `"A, B"` (main cell plus an empty
continuation cell), tabulated for option `"A"`. -/
theorem C9_multi_select_base_witness :
    (⟨"A", 1, pyRound1 (((1 : Nat) : ℚ) / ((1 : Nat) : ℚ) * 100), 1⟩ : TabRow).base =
      (([[some "A, B", none]] : List (List Cell)).filter rowHasValue).length ∧
    (⟨"A", 1, pyRound1 (((1 : Nat) : ℚ) / ((1 : Nat) : ℚ) * 100), 1⟩ : TabRow).count =
      (multiTokens (merge_unnamed_columns [[some "A, B", none]])).count
        (⟨"A", 1, pyRound1 (((1 : Nat) : ℚ) / ((1 : Nat) : ℚ) * 100), 1⟩ : TabRow).option :=
  C9_multi_select_base [[some "A, B", none]] ["A"] _ (List.mem_cons_self _ _)

/-- C4 counterexample: a question text that contains all three phrases of
the claim — `"scale of 0 to 10"`, `"1 means Poor"`, `"10 means Excellent"`
— but without quote delimiters around the endpoint meanings; the `1 means`
capture runs greedily to the end of the text, so the first option is
`"1- Poor and 10 means Excellent"`, not `"1- Poor"`, and the produced list
differs from the claimed one. -/
theorem C4_counterexample :
    expand_nps_if_needed
        "Rate on a scale of 0 to 10 where 1 means Poor and 10 means Excellent"
        [] =
      ["1- Poor and 10 means Excellent", "2", "3", "4", "5", "6", "7", "8",
       "9", "10- Excellent"] ∧
    strContains
      (lowerStr
        "Rate on a scale of 0 to 10 where 1 means Poor and 10 means Excellent")
      "scale of 0 to 10" = true ∧
    strContains
      "Rate on a scale of 0 to 10 where 1 means Poor and 10 means Excellent"
      "1 means Poor" = true ∧
    strContains
      "Rate on a scale of 0 to 10 where 1 means Poor and 10 means Excellent"
      "10 means Excellent" = true ∧
    (["1- Poor and 10 means Excellent", "2", "3", "4", "5", "6", "7", "8",
      "9", "10- Excellent"] : List String) ≠
      ["1- Poor", "2", "3", "4", "5", "6", "7", "8", "9", "10- Excellent"] :=
  ⟨rfl, rfl, rfl, rfl, by decide⟩

/-- C4 (amended): NPS expansion triggers exactly when the lower-cased text
contains `"1 to 10"`, `"1-10"`, or `"scale of 0 to 10"`; with no trigger
phrase the options come back unchanged. On a trigger, the `1 means` /
`10 means` captures run to the next straight or closing curly quote or the
end of the text; when those captured meanings are exactly `Poor` and
`Excellent` (for instance because they are quote-delimited), the options
are replaced by exactly
`["1- Poor", "2", …, "9", "10- Excellent"]`. -/
theorem C4_nps_expansion :
    ∀ (q_text : String) (options : List String),
    (strContains (lowerStr q_text) "1 to 10" = false →
      strContains (lowerStr q_text) "1-10" = false →
      strContains (lowerStr q_text) "scale of 0 to 10" = false →
      expand_nps_if_needed q_text options = options) ∧
    (strContains (lowerStr q_text) "scale of 0 to 10" = true →
      ∀ cap1 cap10 : List Char,
      npsSearch ['1'] q_text.data = some cap1 →
      pyStrip ⟨cap1⟩ = "Poor" →
      npsSearch ['1', '0'] q_text.data = some cap10 →
      pyStrip ⟨cap10⟩ = "Excellent" →
      expand_nps_if_needed q_text options =
        ["1- Poor", "2", "3", "4", "5", "6", "7", "8", "9", "10- Excellent"]) := by
  intro q opts
  constructor
  · intro h1 h2 h3
    have hf : (strContains (lowerStr q) "1 to 10" ||
        strContains (lowerStr q) "1-10" ||
        strContains (lowerStr q) "scale of 0 to 10") = false := by
      rw [h1, h2, h3]
      rfl
    simp only [expand_nps_if_needed, hf, Bool.false_eq_true, if_false]
  · intro h3 cap1 cap10 hc1 hs1 hc10 hs10
    have ht : (strContains (lowerStr q) "1 to 10" ||
        strContains (lowerStr q) "1-10" ||
        strContains (lowerStr q) "scale of 0 to 10") = true := by
      rw [h3]
      simp
    simp only [expand_nps_if_needed, ht, if_true, hc1, hc10]
    rw [hs1, hs10]
    rfl

/-- C4 witness: a no-trigger text returns its options unchanged, and a text
whose endpoint meanings are delimited by a closing curly quote and the end
of the text produces exactly the claimed ten options. -/
theorem C4_nps_expansion_witness :
    expand_nps_if_needed "Pick your favourite colour" ["Red", "Blue"] =
      ["Red", "Blue"] ∧
    expand_nps_if_needed
        "On a scale of 0 to 10; 1 means Poor” and 10 means Excellent" ["x"] =
      ["1- Poor", "2", "3", "4", "5", "6", "7", "8", "9", "10- Excellent"] :=
  ⟨(C4_nps_expansion "Pick your favourite colour" ["Red", "Blue"]).1 rfl rfl rfl,
   (C4_nps_expansion
      "On a scale of 0 to 10; 1 means Poor” and 10 means Excellent" ["x"]).2
     rfl "Poor".data "Excellent".data rfl rfl rfl rfl⟩

theorem head?_dropWhile_false {α : Type} {p : α → Bool} (l : List α) :
    ∀ c, (l.dropWhile p).head? = some c → p c = false := by
  induction l with
  | nil => intro c hc; cases hc
  | cons a t ih =>
    intro c hc
    by_cases ha : p a
    · rw [List.dropWhile_cons_of_pos ha] at hc
      exact ih c hc
    · rw [List.dropWhile_cons_of_neg ha] at hc
      obtain rfl : a = c := by simpa using hc
      simpa using ha

theorem dropWhile_all_ws {α : Type} {p : α → Bool} {l : List α}
    (h : l.dropWhile p = []) : ∀ c ∈ l, p c = true := by
  intro c hc
  have := List.dropWhile_eq_nil_iff.mp h
  exact this c hc

theorem tryWsOr_some_head_ws {cs t : List Char} (h : tryWsOr cs = some t) :
    ∃ c cs', cs = c :: cs' ∧ isPyWs c = true := by
  cases cs with
  | nil => cases h
  | cons c cs' =>
    simp only [tryWsOr] at h
    refine ⟨c, cs', rfl, ?_⟩
    by_cases hw : isPyWs c = true
    · exact hw
    · rw [if_neg hw] at h; cases h

theorem tryWsOr_some_tail {cs t : List Char} (h : tryWsOr cs = some t) :
    ∃ o r rest2, cs.dropWhile isPyWs = o :: r :: rest2 ∧
      t = rest2.dropWhile isPyWs ∧ rest2 ≠ [] := by
  unfold tryWsOr at h
  split at h
  · cases h
  · split at h
    · split at h
      · split at h
        · split at h
          · split at h
            · refine ⟨_, _, _, by assumption, ?_, by simp⟩
              exact ((Option.some.injEq _ _).mp h).symm
            · cases h
          · cases h
        · cases h
      · cases h
    · cases h

theorem tryWsOr_some_suffix {cs t : List Char} (h : tryWsOr cs = some t) :
    t <:+ cs := by
  obtain ⟨o, r, rest2, hd, ht, _⟩ := tryWsOr_some_tail h
  have h1 : rest2 <:+ cs.dropWhile isPyWs := by
    rw [hd]; exact ⟨[o, r], rfl⟩
  have h2 : cs.dropWhile isPyWs <:+ cs := List.dropWhile_suffix isPyWs
  have h3 : t <:+ rest2 := by rw [ht]; exact List.dropWhile_suffix isPyWs
  exact h3.trans (h1.trans h2)

theorem tryWsOr_some_nil_last {cs : List Char} (h : tryWsOr cs = some []) :
    ∃ c, cs.getLast? = some c ∧ isPyWs c = true := by
  obtain ⟨o, r, rest2, hd, ht, hne⟩ := tryWsOr_some_tail h
  have hall : ∀ c ∈ rest2, isPyWs c = true := dropWhile_all_ws ht.symm
  have hsuf : rest2 <:+ cs := by
    have h1 : rest2 <:+ cs.dropWhile isPyWs := by
      rw [hd]; exact ⟨[o, r], rfl⟩
    exact h1.trans (List.dropWhile_suffix isPyWs)
  obtain ⟨pre, hpre⟩ := hsuf
  cases hr2 : rest2.getLast? with
  | none => exact absurd (List.getLast?_eq_none_iff.mp hr2) hne
  | some c =>
    refine ⟨c, ?_, hall c (List.mem_of_mem_getLast? hr2)⟩
    rw [← hpre, List.getLast?_append_of_ne_nil pre hne]
    exact hr2

theorem tryWsOr_some_head_not_ws {cs t : List Char} (h : tryWsOr cs = some t) :
    ∀ c, t.head? = some c → isPyWs c = false := by
  obtain ⟨o, r, rest2, hd, ht, _⟩ := tryWsOr_some_tail h
  intro c hc
  rw [ht] at hc
  exact head?_dropWhile_false rest2 c hc

theorem wsOrFind_some {cs a b : List Char} (h : wsOrFind cs = some (a, b)) :
    ∃ t, cs = a ++ t ∧ tryWsOr t = some b := by
  induction cs generalizing a b with
  | nil => cases h
  | cons c cs' ih =>
    unfold wsOrFind at h
    cases htry : tryWsOr (c :: cs') with
    | some tail =>
      rw [htry] at h
      obtain ⟨rfl, rfl⟩ : a = [] ∧ tail = b := by
        constructor <;> · cases h; rfl
      exact ⟨c :: cs', rfl, htry⟩
    | none =>
      rw [htry] at h
      cases hfind : wsOrFind cs' with
      | none => rw [hfind] at h; cases h
      | some p =>
        rw [hfind] at h
        obtain ⟨a', b'⟩ := p
        obtain ⟨rfl, rfl⟩ : a = c :: a' ∧ b' = b := by
          constructor <;> · cases h; rfl
        obtain ⟨t, hcs, ht⟩ := ih hfind
        exact ⟨t, by rw [List.cons_append, ← hcs], ht⟩

theorem containsSubL_cons (x : Char) (xs pat : List Char) :
    containsSubL (x :: xs) pat =
      (pat.isPrefixOf (x :: xs) || containsSubL xs pat) := by
  unfold containsSubL
  rw [show (x :: xs).tails = (x :: xs) :: xs.tails from rfl]
  simp

theorem wsOrFind_isSome_of_contains {cs : List Char}
    (h : containsSubL (cs.map Char.toLower) [' ', 'o', 'r', ' '] = true) :
    (wsOrFind cs).isSome = true := by
  induction cs with
  | nil => cases h
  | cons c rest ih =>
    rw [List.map_cons, containsSubL_cons] at h
    rcases Bool.or_eq_true _ _ |>.mp h with hpre | hrest
    · -- pattern at the head: cs starts with ws, o/O, r/R, ws
      cases rest with
      | nil => simp [List.isPrefixOf] at hpre
      | cons c1 rest1 =>
        cases rest1 with
        | nil => simp [List.isPrefixOf] at hpre
        | cons c2 rest2 =>
          cases rest2 with
          | nil => simp [List.isPrefixOf] at hpre
          | cons c3 rest3 =>
            simp only [List.map_cons, List.isPrefixOf, Bool.and_eq_true,
              beq_iff_eq] at hpre
            obtain ⟨h0, h1, h2, h3, _⟩ := hpre
            obtain rfl : c = ' ' := toLower_eq_space h0.symm
            obtain rfl : c3 = ' ' := toLower_eq_space h3.symm
            rcases toLower_eq_o h1.symm with rfl | rfl <;>
              rcases toLower_eq_r h2.symm with rfl | rfl <;>
                simp [wsOrFind, tryWsOr, isPyWs]
    · cases htry : tryWsOr (c :: rest) with
      | some tail => simp [wsOrFind, htry]
      | none =>
        have := ih hrest
        simp only [wsOrFind, htry]
        simpa using this

theorem bipolar_pole_pair_no_or {opt : String}
    (h : strContains (lowerStr opt) " or " = false) :
    bipolar_pole_pair opt = (opt, "") := by
  simp [bipolar_pole_pair, h]

theorem bipolar_pole_pair_nonempty {opt : String}
    (hstrip : pyStrip opt = opt)
    (h : strContains (lowerStr opt) " or " = true) :
    (bipolar_pole_pair opt).1 ≠ "" ∧ (bipolar_pole_pair opt).2 ≠ "" := by
  have hsome : (wsOrFind opt.data).isSome = true :=
    wsOrFind_isSome_of_contains h
  obtain ⟨⟨a, b⟩, hab⟩ := Option.isSome_iff_exists.mp hsome
  obtain ⟨t, hcs, htry⟩ := wsOrFind_some hab
  have hta : a ≠ [] := by
    rintro rfl
    obtain ⟨c0, cs', hcs', hw⟩ := tryWsOr_some_head_ws htry
    rw [List.nil_append] at hcs
    have hhead : opt.data.head? = some c0 := by rw [hcs, hcs']; rfl
    have := pyStrip_eq_self_head hstrip c0 hhead
    rw [hw] at this
    cases this
  have ha_strip : pyStrip ⟨a⟩ ≠ "" := by
    cases a with
    | nil => cases hta rfl
    | cons a0 a' =>
      have hhead : opt.data.head? = some a0 := by rw [hcs]; rfl
      have h0 : isPyWs a0 = false := pyStrip_eq_self_head hstrip a0 hhead
      exact string_mk_ne_empty (pyStripL_ne_nil (List.mem_cons_self a0 a') h0)
  have htb : b ≠ [] := by
    rintro rfl
    obtain ⟨w, hw, hww⟩ := tryWsOr_some_nil_last htry
    have htne : t ≠ [] := by
      rintro rfl
      cases htry
    have hlast : opt.data.getLast? = some w := by
      rw [hcs, List.getLast?_append_of_ne_nil a htne]
      exact hw
    have := pyStrip_eq_self_last hstrip w hlast
    rw [hww] at this
    cases this
  have hb_strip : pyStrip ⟨b⟩ ≠ "" := by
    cases hb : b with
    | nil => exact absurd hb htb
    | cons b0 b' =>
      have h0 : isPyWs b0 = false :=
        tryWsOr_some_head_not_ws htry b0 (by rw [hb]; rfl)
      exact string_mk_ne_empty (pyStripL_ne_nil (List.mem_cons_self b0 b') h0)
  unfold bipolar_pole_pair
  rw [h]
  simp only [if_true, hab]
  exact ⟨ha_strip, hb_strip⟩

/-- C5 counterexample: the option `"A\tor B or C"` contains the token
`" or "` (inside `"B or C"`), but the code splits at the first
`\s+or\s+` regex match — the tab-delimited `or` — yielding
`("A", "B or C")` rather than the split at the first `" or "` occurrence,
which would be `("A\tor B", "C")`. -/
theorem C5_counterexample :
    bipolar_pole_pair "A\tor B or C" = ("A", "B or C") ∧
    strContains (lowerStr "A\tor B or C") " or " = true ∧
    (("A", "B or C") : String × String) ≠ ("A\tor B", "C") :=
  ⟨rfl, rfl, by decide⟩

/-- C5 (amended): for every Bipolar question the `pole_pairs` list has
exactly the length of the options list; an option without the
(case-insensitive) token `" or "` pairs with the empty second pole
`(option, "")`; and a stripped option containing `" or "` is split at the
first whitespace-`or`-whitespace run (which coincides with the first
`" or "` occurrence when the option's interior whitespace is plain
spaces), both resulting poles being non-empty. -/
theorem C5_bipolar_pole_pairs :
    ∀ options : List String,
    (bipolar_pole_pairs options).length = options.length ∧
    ∀ opt ∈ options, pyStrip opt = opt →
      (strContains (lowerStr opt) " or " = false →
        bipolar_pole_pair opt = (opt, "")) ∧
      (strContains (lowerStr opt) " or " = true →
        (bipolar_pole_pair opt).1 ≠ "" ∧ (bipolar_pole_pair opt).2 ≠ "") := by
  intro options
  refine ⟨List.length_map _ _, ?_⟩
  intro opt _ hstrip
  exact ⟨fun h => bipolar_pole_pair_no_or h,
         fun h => bipolar_pole_pair_nonempty hstrip h⟩

/-- C5 witness: a plain option pairs with `""`; an `or`-option yields two
non-empty poles. -/
theorem C5_bipolar_pole_pairs_witness :
    bipolar_pole_pair "Value for money" = ("Value for money", "") ∧
    (bipolar_pole_pair "Cheap or Expensive").1 ≠ "" ∧
    (bipolar_pole_pair "Cheap or Expensive").2 ≠ "" := by
  have h := (C5_bipolar_pole_pairs ["Value for money", "Cheap or Expensive"]).2
  exact ⟨(h "Value for money" (by decide) rfl).1 rfl,
    ((h "Cheap or Expensive" (by decide) rfl).2 rfl).1,
    ((h "Cheap or Expensive" (by decide) rfl).2 rfl).2⟩

end Databook
